import Mathlib

/-!
Verification of the AegisAI ACP provider (Base-only) and its sibling provider
variant against their natural-language specification.

The JavaScript source is shallowly embedded:
* JavaScript values reaching the validators are modelled by `JSValue`
  (finite numbers as exact rationals `ℚ`; every non-finite number — `NaN`,
  `±Infinity` — collapsed into one constructor `nnum`, which is all the
  source distinguishes via `Number.isFinite`).
* JavaScript number arithmetic is modelled by `JQ := Option ℚ` with
  NaN-propagating operations (`none` = non-finite); `Math.round x` is
  `⌊x + 1/2⌋`, `Math.trunc` truncates toward zero.
* Asynchronous resource fetches are pure parameters: a fetch outcome is the
  already-received result (`GasFetch` / `DepthFetch`), since both providers
  wrap the HTTP call in a non-throwing `safeFetchJson` and all downstream
  logic depends only on the outcome.
* `new Date().toISOString()` is impure; builders take the timestamp as a
  `now : String` parameter.
* `String()` applied to a non-string value uses an approximate rendering
  (`jsToString`); no claim exercises that coercion on a non-string input.
-/

set_option maxRecDepth 4000

/-- JavaScript values as far as the two providers inspect them.
`num` is a finite number (exact rational), `nnum` any non-finite number
(NaN or ±Infinity — the source only ever asks `Number.isFinite`),
`undefined` is JavaScript undefined. Objects keep literal field order. -/
inductive JSValue where
  | num (q : ℚ)
  | nnum
  | str (s : String)
  | bool (b : Bool)
  | null
  | undefined
  | arr (xs : List JSValue)
  | obj (fields : List (String × JSValue))

/-- JavaScript truthiness of a value. -/
def JSValue.truthy : JSValue → Bool
  | .num q => q != 0
  | .nnum => false
  | .str s => s ≠ ""
  | .bool b => b
  | .null => false
  | .undefined => false
  | .arr _ => true
  | .obj _ => true

/-- Property access `v[k]` on a JavaScript value: `undefined` when absent or
when `v` is not an object. (Object literals in this embedding have unique
keys, so first-match lookup agrees with JavaScript.) -/
def JSValue.get (v : JSValue) (k : String) : JSValue :=
  match v with
  | .obj fields => ((fields.find? (fun p => p.1 = k)).map (fun p => p.2)).getD .undefined
  | _ => .undefined

/-- `v == null` in JavaScript: true exactly for `null` and `undefined`. -/
def JSValue.isNullish : JSValue → Bool
  | .null => true
  | .undefined => true
  | _ => false

/-- `typeof v === "object" && v !== null`: arrays and plain objects. -/
def JSValue.isObjectLike : JSValue → Bool
  | .arr _ => true
  | .obj _ => true
  | _ => false

/-- `Array.isArray`. -/
def JSValue.isArr : JSValue → Bool
  | .arr _ => true
  | _ => false

/-- The element list of an array value (empty for non-arrays). -/
def JSValue.elems : JSValue → List JSValue
  | .arr xs => xs
  | _ => []

/-- `String(v)`. Exact on strings (the only case any claim exercises);
approximate number formatting elsewhere. -/
def jsToString : JSValue → String
  | .str s => s
  | .num q => toString q
  | .nnum => "NaN"
  | .bool b => if b then "true" else "false"
  | .null => "null"
  | .undefined => "undefined"
  | .arr _ => ""
  | .obj _ => "[object Object]"

/- Lean's core `String.trim`, `toLower`, `replace` and `splitOn` do not
reduce inside the kernel (their loops recurse on byte positions), so the
embedding uses the following list-based equivalents. -/

/-- `String.prototype.trim`: strip leading and trailing whitespace. -/
def jsTrim (s : String) : String :=
  ⟨((s.data.dropWhile Char.isWhitespace).reverse.dropWhile Char.isWhitespace).reverse⟩

/-- `toLowerCase()`. -/
def toLowerStr (s : String) : String := ⟨s.data.map Char.toLower⟩

/-- `toUpperCase()`. -/
def toUpperStr (s : String) : String := ⟨s.data.map Char.toUpper⟩

/-- `replace(/,/g, "")`. -/
def stripCommas (s : String) : String := ⟨s.data.filter (fun c => c ≠ ',')⟩

/-- Split a character list at every occurrence of `sep` (the single-char
case of `String.splitOn`). -/
def splitOnChar (sep : Char) : List Char → List (List Char)
  | [] => [[]]
  | c :: cs =>
      let r := splitOnChar sep cs
      if c = sep then [] :: r
      else match r with
        | [] => [[c]]
        | h :: t => (c :: h) :: t

/-- A JavaScript number: `some q` a finite value, `none` non-finite
(NaN and ±Infinity collapsed; the source never distinguishes them). -/
abbrev JQ := Option ℚ

/-- Embed a known-finite literal. -/
def jq (q : ℚ) : JQ := some q

/- Mathlib's `Rat.add`/`mul`/`div` do not reduce inside the kernel, while
`Rat.divInt`, `num`/`den`, the order instances and `Int.floor`/`Int.ceil`
do. The embedding therefore computes with the following `divInt`-based
operations; the theorems `qAdd_eq`, `qSub_eq`, `qMul_eq`, `qDiv_eq`,
`qMin_eq` and `qMax_eq` below prove each one equal to the corresponding
field operation on `ℚ`. -/

/-- Rational addition, kernel-computable. -/
def qAdd (a b : ℚ) : ℚ := Rat.divInt (a.num * b.den + b.num * a.den) (a.den * b.den)

/-- Rational subtraction, kernel-computable. -/
def qSub (a b : ℚ) : ℚ := Rat.divInt (a.num * b.den - b.num * a.den) (a.den * b.den)

/-- Rational multiplication, kernel-computable. -/
def qMul (a b : ℚ) : ℚ := Rat.divInt (a.num * b.num) (a.den * b.den)

/-- Rational division, kernel-computable (`qDiv a 0 = 0 = a / 0`). -/
def qDiv (a b : ℚ) : ℚ := Rat.divInt (a.num * b.den) (a.den * b.num)

/-- `min` on `ℚ`, kernel-computable. -/
def qMin (a b : ℚ) : ℚ := if a ≤ b then a else b

/-- `max` on `ℚ`, kernel-computable. -/
def qMax (a b : ℚ) : ℚ := if a ≤ b then b else a

/-- NaN-propagating addition. -/
def jqAdd (a b : JQ) : JQ := match a, b with
  | some x, some y => some (qAdd x y)
  | _, _ => none

/-- NaN-propagating subtraction. -/
def jqSub (a b : JQ) : JQ := match a, b with
  | some x, some y => some (qSub x y)
  | _, _ => none

/-- NaN-propagating multiplication. -/
def jqMul (a b : JQ) : JQ := match a, b with
  | some x, some y => some (qMul x y)
  | _, _ => none

/-- NaN-propagating division. JavaScript `x/0` is `±Infinity` (or NaN), all
of which this embedding folds into `none`. -/
def jqDiv (a b : JQ) : JQ := match a, b with
  | some x, some y => if y = 0 then none else some (qDiv x y)
  | _, _ => none

/-- `Math.round` on a finite rational: round half toward positive infinity. -/
def jround (q : ℚ) : ℤ := ⌊qAdd q (Rat.divInt 1 2)⌋

/-- `Math.round` lifted to JavaScript numbers. -/
def jqRound (a : JQ) : JQ := a.map (fun q => ((jround q : ℤ) : ℚ))

/-- `Math.trunc` on a finite rational: toward zero. -/
def jtrunc (q : ℚ) : ℤ := if 0 ≤ q then ⌊q⌋ else ⌈q⌉

/-- `Math.min` of two numbers (NaN-propagating). -/
def jqMin (a b : JQ) : JQ := match a, b with
  | some x, some y => some (qMin x y)
  | _, _ => none

/-- `Math.max` of two numbers (NaN-propagating). -/
def jqMax (a b : JQ) : JQ := match a, b with
  | some x, some y => some (qMax x y)
  | _, _ => none

/-- `a > b` on JavaScript numbers: false whenever either side is NaN. -/
def jqGt (a b : JQ) : Bool := match a, b with
  | some x, some y => x > y
  | _, _ => false

/-- `a >= b` on JavaScript numbers: false whenever either side is NaN. -/
def jqGe (a b : JQ) : Bool := match a, b with
  | some x, some y => x ≥ y
  | _, _ => false

/-- `a < b` on JavaScript numbers: false whenever either side is NaN. -/
def jqLt (a b : JQ) : Bool := match a, b with
  | some x, some y => x < y
  | _, _ => false

/-- `Number(x.toFixed(2))`: round to two decimal places. -/
def toFixed2 (q : ℚ) : ℚ := qDiv ((jround (qMul q 100) : ℤ) : ℚ) 100

/- ------------------------------------------------------------------ -/
/- Provider one (part_000): utility helpers                            -/
/- ------------------------------------------------------------------ -/

/-- Source constant `AGENT_VERSION`. -/
def AGENT_VERSION : String := "1.0.0"

/-- Source constant `ACP_CHAIN` with its default environment (`"base"`). -/
def ACP_CHAIN : String := "base"

/-- Source constant `SUPPORTED_CHAINS`. -/
def SUPPORTED_CHAINS : List String := ["base", "base-sepolia"]

/-- `isObj`: a non-array object. -/
def isObj : JSValue → Bool
  | .obj _ => true
  | _ => false

/-- `isNonEmptyString`: a string that is non-empty after trimming. -/
def isNonEmptyString : JSValue → Bool
  | .str s => (jsTrim s).length > 0
  | _ => false

/-- `oneOf(v, allowed)` for an already-string value. -/
def oneOf (v : String) (allowed : List String) : Bool := allowed.contains v

/-- `pushErr(errors, field, message)` formats the string pushed onto the
error list; the embedding accumulates lists functionally. -/
def pushErr (field message : String) : String := s!"{field}: {message}"

/-- Digits of a decimal numeral to a natural number. -/
def digitsToNat (cs : List Char) : ℕ :=
  cs.foldl (fun a c => a * 10 + (c.toNat - 48)) 0

/-- One decimal numeral with optional fractional part, e.g. `50000`,
`12.5`, `.5`, `5.`. (JavaScript `Number()` also accepts hex and exponent
forms; no input of this development uses them.) -/
def parseDecCore (cs : List Char) : Option ℚ :=
  match splitOnChar '.' cs with
  | [ip] =>
      if ip.length > 0 && ip.all Char.isDigit then
        some ((digitsToNat ip : ℤ) : ℚ)
      else none
  | [ip, fp] =>
      if (ip.length > 0 || fp.length > 0)
          && ip.all Char.isDigit && fp.all Char.isDigit then
        some (Rat.divInt
          ((digitsToNat ip : ℤ) * (10 : ℤ) ^ fp.length + (digitsToNat fp : ℤ))
          ((10 : ℤ) ^ fp.length))
      else none
  | _ => none

/-- `Number(cleaned)` on a non-empty, comma-free, trimmed string. -/
def parseDecimal (s : String) : Option ℚ :=
  match s.data with
  | '-' :: rest => (parseDecCore rest).map Neg.neg
  | '+' :: rest => parseDecCore rest
  | cs => parseDecCore cs

/-- `toNumber`: accept numbers or numeric strings like "50000" or "50,000";
non-finite and unparsable inputs give NaN (`none`). -/
def toNumber (v : JSValue) : JQ :=
  match v with
  | .num q => some q
  | .str s =>
      let cleaned := stripCommas (jsTrim s)
      if cleaned = "" then none else parseDecimal cleaned
  | _ => none

/-- `toInt`: `Math.trunc` of `toNumber` when finite, NaN otherwise. -/
def toInt (v : JSValue) : Option ℤ := (toNumber v).map jtrunc

/-- `clamp(n, a, b)` on finite rationals. -/
def clamp (n a b : ℚ) : ℚ := qMax a (qMin b n)

/-- `clamp` lifted to JavaScript numbers (NaN propagates through
`Math.min`/`Math.max`). -/
def jqClamp (n : JQ) (a b : ℚ) : JQ := n.map (fun q => clamp q a b)

/- ------------------------------------------------------------------ -/
/- Evidence and confidence                                             -/
/- ------------------------------------------------------------------ -/

/-- One evidence entry: provenance label plus either a freshness hint
(successful fetch) or an error string (failed fetch). -/
structure Evidence where
  source : String
  freshness_seconds : Option ℕ := none
  error : Option String := none
deriving Repr, DecidableEq

/-- `confidenceFromEvidence`: membership of the two resource labels in the
set of evidence sources. -/
def confidenceFromEvidence (evidence : List Evidence) : String :=
  let src := evidence.map (fun x => x.source)
  let hasGas := src.contains "resources/base-gas-profile"
  let hasDepth := src.contains "resources/base-venue-depth"
  if hasGas && hasDepth then "high"
  else if hasGas || hasDepth then "medium"
  else "low"

/- ------------------------------------------------------------------ -/
/- Provider one: validations                                           -/
/- ------------------------------------------------------------------ -/

/-- The `{ok, errors}` object every validator returns;
`ok` is `errors.length === 0`. -/
structure ValidationResult where
  ok : Bool
  errors : List String
deriving Repr, DecidableEq

/-- `validateBaseChain(req, errors)`: the errors it pushes and the value
`req.chain` holds afterwards (lower-cased when it was a non-empty string,
untouched otherwise). The unsupported-chain message lists
`SUPPORTED_CHAINS` joined by ", ". -/
def validateBaseChain (chain : JSValue) : List String × JSValue :=
  if !isNonEmptyString chain then
    ([pushErr "chain" "must be a non-empty string"], chain)
  else
    let c := toLowerStr (jsToString chain)
    (if SUPPORTED_CHAINS.contains c then []
     else [pushErr "chain" "must be one of: base, base-sepolia"], .str c)

/-- The fields of a `pre_trade_risk_pack` requirement after
`validatePreTradeRiskPack` mutated it in place. `none` in
`max_slippage_bps`/`notional_value_usd`/`leverage` is the stored NaN; in
`time_horizon_minutes` the outer `none` means the field was nullish and
left untouched. -/
structure PreTradeNorm where
  client_agent_id : JSValue
  chain : JSValue
  asset_in : JSValue
  asset_out : JSValue
  side : String
  notional_value_usd : JQ
  execution_venue : String
  max_slippage_bps : Option ℤ
  urgency : String
  leverage : JQ
  time_horizon_minutes : Option (Option ℤ)
  eth_usd : JSValue

/-- `validatePreTradeRiskPack(req)`: the validation result and the mutated
requirement. Errors accumulate in source push order. -/
def validatePreTradeRiskPack (req : JSValue) : ValidationResult × PreTradeNorm :=
  let e1 := if isNonEmptyString (req.get "client_agent_id") then []
            else [pushErr "client_agent_id" "must be a non-empty string"]
  let chainR := validateBaseChain (req.get "chain")
  let e3 := if isNonEmptyString (req.get "asset_in") then []
            else [pushErr "asset_in" "must be token symbol or address"]
  let e4 := if isNonEmptyString (req.get "asset_out") then []
            else [pushErr "asset_out" "must be token symbol or address"]
  let side := toLowerStr (jsToString (if (req.get "side").truthy then req.get "side"
                                      else .str ""))
  let e5 := if oneOf side ["buy", "sell"] then []
            else [pushErr "side" "must be 'buy' or 'sell'"]
  let notional := toNumber (req.get "notional_value_usd")
  let e6 := if (match notional with | some n => decide (0 < n) | none => false) then []
            else [pushErr "notional_value_usd"
                    "must be a positive number (numeric string allowed)"]
  let venue := toLowerStr (jsToString (if (req.get "execution_venue").truthy
                                       then req.get "execution_venue"
                                       else .str "unknown"))
  let e7 := if ["aerodrome", "uniswap_v3", "uniswap_v2", "unknown"].contains venue then []
            else [pushErr "execution_venue"
                    "must be one of: aerodrome, uniswap_v3, uniswap_v2, unknown"]
  let slip := toInt (req.get "max_slippage_bps")
  let e8 := if (match slip with
                | some i => decide (1 ≤ i) && decide (i ≤ 2000)
                | none => false) then []
            else [pushErr "max_slippage_bps"
                    "must be integer 1..2000 (e.g., 50 = 0.50%)"]
  let urgency := toLowerStr (jsToString (if (req.get "urgency").truthy
                                         then req.get "urgency"
                                         else .str "normal"))
  let e9 := if oneOf urgency ["low", "normal", "high"] then []
            else [pushErr "urgency" "must be low/normal/high"]
  let lev := toNumber (if (req.get "leverage").isNullish then .num 1
                       else req.get "leverage")
  let e10 := if (match lev with | some l => decide (1 ≤ l) | none => false) then []
             else [pushErr "leverage" "must be >= 1 (1 for spot)"]
  let horizon : Option (Option ℤ) :=
    if (req.get "time_horizon_minutes").isNullish then none
    else some (toInt (req.get "time_horizon_minutes"))
  let e11 := match horizon with
    | none => []
    | some h =>
        if (match h with
            | some i => decide (1 ≤ i) && decide (i ≤ 10080)
            | none => false) then []
        else [pushErr "time_horizon_minutes" "must be integer 1..10080 (optional)"]
  let errors := e1 ++ chainR.1 ++ e3 ++ e4 ++ e5 ++ e6 ++ e7 ++ e8 ++ e9 ++ e10 ++ e11
  (⟨errors.isEmpty, errors⟩,
   ⟨req.get "client_agent_id", chainR.2, req.get "asset_in", req.get "asset_out",
    side, notional, venue, slip, urgency, lev, horizon, req.get "eth_usd"⟩)

/-- The fields of an `execution_quote_and_route` requirement after
`validateExecutionQuoteAndRoute` mutated it. `allowed_venues = none` means
the provided value had an invalid shape and was left untouched. -/
structure ExecQuoteNorm where
  client_agent_id : JSValue
  chain : JSValue
  asset_in : JSValue
  asset_out : JSValue
  notional_value_usd : JQ
  max_slippage_bps : Option ℤ
  allowed_venues : Option (List String)
  prefer_stable_routes : Bool
  deadline_seconds : Option ℤ

/-- `validateExecutionQuoteAndRoute(req)`. -/
def validateExecutionQuoteAndRoute (req : JSValue) : ValidationResult × ExecQuoteNorm :=
  let e1 := if isNonEmptyString (req.get "client_agent_id") then []
            else [pushErr "client_agent_id" "must be a non-empty string"]
  let chainR := validateBaseChain (req.get "chain")
  let e3 := if isNonEmptyString (req.get "asset_in") then []
            else [pushErr "asset_in" "must be token symbol or address"]
  let e4 := if isNonEmptyString (req.get "asset_out") then []
            else [pushErr "asset_out" "must be token symbol or address"]
  let notional := toNumber (req.get "notional_value_usd")
  let e5 := if (match notional with | some n => decide (0 < n) | none => false) then []
            else [pushErr "notional_value_usd"
                    "must be a positive number (numeric string allowed)"]
  let slip := toInt (req.get "max_slippage_bps")
  let e6 := if (match slip with
                | some i => decide (1 ≤ i) && decide (i ≤ 2000)
                | none => false) then []
            else [pushErr "max_slippage_bps" "must be integer 1..2000"]
  let avR : List String × Option (List String) :=
    if !(req.get "allowed_venues").isNullish then
      match req.get "allowed_venues" with
      | .arr xs =>
          if xs.length = 0 then
            ([pushErr "allowed_venues" "must be a non-empty array if provided"], none)
          else
            let lower := xs.map (fun v => toLowerStr (jsToString v))
            let bad := lower.filter
              (fun v => !(["aerodrome", "uniswap_v3", "uniswap_v2"].contains v))
            let badJoined := String.intercalate ", " bad
            (if bad.length ≠ 0 then [pushErr "allowed_venues" s!"unsupported: {badJoined}"]
             else [], some lower)
      | _ => ([pushErr "allowed_venues" "must be a non-empty array if provided"], none)
    else ([], some ["uniswap_v3", "aerodrome"])
  let prefer := (req.get "prefer_stable_routes").truthy
  let deadline : Option ℤ :=
    if (req.get "deadline_seconds").isNullish then some 180
    else toInt (req.get "deadline_seconds")
  let e8 := if (match deadline with
                | some d => decide (60 ≤ d) && decide (d ≤ 3600)
                | none => false) then []
            else [pushErr "deadline_seconds" "must be integer 60..3600 (default 180)"]
  let errors := e1 ++ chainR.1 ++ e3 ++ e4 ++ e5 ++ e6 ++ avR.1 ++ e8
  (⟨errors.isEmpty, errors⟩,
   ⟨req.get "client_agent_id", chainR.2, req.get "asset_in", req.get "asset_out",
    notional, slip, avR.2, prefer, deadline⟩)

/-- The fields of a `market_intelligence_feed` requirement after
`validateMarketIntel` (provider one) mutated it. `focus_assets = none`
means a non-array was provided and left untouched. -/
structure MarketIntelNorm where
  client_agent_id : JSValue
  chain : JSValue
  lookback_minutes : Option ℤ
  minimum_notional_usd : JQ
  focus_assets : Option (List String)
  severity_floor : String

/-- `validateMarketIntel(req)` of provider one. -/
def validateMarketIntel (req : JSValue) : ValidationResult × MarketIntelNorm :=
  let e1 := if isNonEmptyString (req.get "client_agent_id") then []
            else [pushErr "client_agent_id" "must be a non-empty string"]
  let chainR := validateBaseChain (req.get "chain")
  let lb := toInt (req.get "lookback_minutes")
  let e3 := if (match lb with
                | some i => decide (5 ≤ i) && decide (i ≤ 43200)
                | none => false) then []
            else [pushErr "lookback_minutes" "must be integer 5..43200"]
  let minN := if !(req.get "minimum_notional_usd").isNullish
              then toNumber (req.get "minimum_notional_usd")
              else toNumber (req.get "min_notional_usd")
  let e4 := if (match minN with | some n => decide (0 < n) | none => false) then []
            else [pushErr "minimum_notional_usd"
                    "must be a positive number (numeric string allowed)"]
  let faR : List String × Option (List String) :=
    if !(req.get "focus_assets").isNullish then
      match req.get "focus_assets" with
      | .arr xs =>
          ([], some ((xs.map (fun x => jsTrim (jsToString x))).filter (fun s => s ≠ "")))
      | _ => ([pushErr "focus_assets" "must be array(string) if provided"], none)
    else ([], some [])
  let sev := toLowerStr (jsToString (if (req.get "severity_floor").truthy
                                     then req.get "severity_floor"
                                     else .str "info"))
  let e6 := if ["info", "low", "medium", "high", "critical"].contains sev then []
            else [pushErr "severity_floor"
                    "must be one of: info, low, medium, high, critical"]
  let errors := e1 ++ chainR.1 ++ e3 ++ e4 ++ faR.1 ++ e6
  (⟨errors.isEmpty, errors⟩,
   ⟨req.get "client_agent_id", chainR.2, lb, minN, faR.2, sev⟩)

/- ------------------------------------------------------------------ -/
/- Resource fetch outcomes and data                                    -/
/- ------------------------------------------------------------------ -/

/-- `Number(v)` coercion (used by the builders on resource-supplied
values). Exact on numbers; approximate on exotic inputs that no resource
contract produces (arrays and objects collapse to NaN). -/
def jsNumber : JSValue → JQ
  | .num q => some q
  | .nnum => none
  | .str s => let t := jsTrim s; if t = "" then some 0 else parseDecimal t
  | .bool b => some (if b then 1 else 0)
  | .null => some 0
  | .undefined => none
  | .arr _ => none
  | .obj _ => none

/-- The gas-profile payload `data` as the pre-trade and market-intel
builders read it. Fields are raw JavaScript values because the builders
guard each one (`||`, `?? null`, `!= null`); `variance_hint_volatility_ratio`
is the flattened optional chain `gas.variance_hint?.volatility_ratio`. -/
structure GasData where
  congestion_level : JSValue := .undefined
  base_fee_gwei : JSValue := .undefined
  median_priority_fee_gwei : JSValue := .undefined
  suggested_max_fee_gwei : JSValue := .undefined
  cost_estimates : JSValue := .undefined
  variance_hint_volatility_ratio : JSValue := .undefined

/-- One entry of the venue-depth payload's `venues` array. -/
structure Venue where
  venue : String := ""
  depth_usd : Option ℚ := none
  estimated_slippage_bps : Option ℚ := none
deriving Repr, DecidableEq

/-- The venue-depth payload `data`. -/
structure DepthData where
  venues : List Venue := []
  best_by_depth : Option Venue := none
deriving Repr, DecidableEq

/-- Outcome of the HTTP exchange inside `fetchBaseGasProfile`: either the
decoded `data` of an `ok` response, or the error string of any other
outcome (`r.error || r.json?.message || "unavailable"`). -/
inductive GasFetch where
  | success (data : GasData)
  | failure (error : String)

/-- Outcome of the HTTP exchange inside `fetchBaseVenueDepth`. -/
inductive DepthFetch where
  | success (data : DepthData)
  | failure (error : String)

/-- `fetchBaseGasProfile`: evidence entry plus data for each outcome. -/
def fetchBaseGasProfile : GasFetch → List Evidence × Option GasData
  | .failure e => ([⟨"resources/base-gas-profile", none, some e⟩], none)
  | .success d => ([⟨"resources/base-gas-profile", some 60, none⟩], some d)

/-- `fetchBaseVenueDepth`: evidence entry plus data for each outcome. -/
def fetchBaseVenueDepth : DepthFetch → List Evidence × Option DepthData
  | .failure e => ([⟨"resources/base-venue-depth", none, some e⟩], none)
  | .success d => ([⟨"resources/base-venue-depth", some 60, none⟩], some d)

/-- `best = depthR.data?.best_by_depth || null` as a function of the depth
fetch outcome (the pre-trade builder's `best`). -/
def bestOf (depthF : DepthFetch) : Option Venue :=
  (fetchBaseVenueDepth depthF).2.bind (fun d => d.best_by_depth)

/-- `congestion = gas.congestion_level || "unknown"` (with `gas = data || {}`)
as a function of the gas fetch outcome — the expression is shared by the
pre-trade and market-intel builders of provider one. -/
def congestionOf (gasF : GasFetch) : String :=
  match (fetchBaseGasProfile gasF).2 with
  | some g => if g.congestion_level.truthy then jsToString g.congestion_level
              else "unknown"
  | none => "unknown"

/- ------------------------------------------------------------------ -/
/- Provider one: deliverable shape                                     -/
/- ------------------------------------------------------------------ -/

/-- `execution_plan` of the pre-trade deliverable. -/
structure ExecutionPlan where
  recommended_venue : String
  fallback_venues : List String
  recommended_split_count : ℕ
  recommended_max_slippage_bps : JQ
  deadline_seconds : ℤ
  notes : String

/-- `liquidity_analysis` of the pre-trade deliverable. -/
structure LiquidityAnalysis where
  pair : String
  notional_usd : JQ
  best_by_depth : Option Venue
  venues_considered : List Venue
  estimated_liquidity_depth_usd : JQ
  estimated_slippage_bps_at_size : JQ
  price_impact_estimate_bps : JQ

/-- `gas_analysis` of the pre-trade deliverable. -/
structure GasAnalysis where
  congestion_level : String
  suggested_max_fee_gwei : JSValue
  median_priority_fee_gwei : JSValue
  base_fee_gwei : JSValue
  estimated_gas_units : ℕ
  estimated_gas_price_wei : JQ
  cost_estimates : JSValue

/-- One `scenario_analysis` entry. -/
structure Scenario where
  scenario : String
  impact : String
  recommendation : String

/-- `safety_parameters` of the execution-quote deliverable. -/
structure SafetyParameters where
  deadline_seconds : Option ℤ
  min_out_strategy : String
  retry_policy : String

/-- `regime` of the market-intel deliverable. -/
structure Regime where
  gas_regime : String
  liquidity_regime : String
  risk_note : String

/-- One market-intel alert. -/
structure Alert where
  id : String
  severity : String
  title : String
  description : String
  recommended_action : String

/-- `stats` of the market-intel deliverable. -/
structure IntelStats where
  lookback_minutes : Option ℤ
  minimum_notional_usd : JQ
  alerts_count : ℕ
  data_freshness_seconds : ℕ
  coverage : List String

/-- One `watchlist_summary` entry (keyed by focus asset). -/
structure WatchNote where
  note : String
  risk_flag : Bool

/-- A provider-one deliverable: the union of the fields the four builder
paths (`pre_trade_risk_pack`, `execution_quote_and_route`,
`market_intelligence_feed`, unknown job) produce. `none` means the builder
did not put the key on the object at all. -/
structure Deliverable where
  job_name : String
  agent_version : Option String := none
  chain : Option JSValue := none
  validation_passed : Bool := false
  validation_errors : List String := []
  decision : Option String := none
  risk_score : Option JQ := none
  recommended_size_factor : Option JQ := none
  confidence_level : Option String := none
  key_risks : Option (List String) := none
  execution_plan : Option ExecutionPlan := none
  liquidity_analysis : Option LiquidityAnalysis := none
  gas_analysis : Option GasAnalysis := none
  scenario_analysis : Option (List Scenario) := none
  best_venue : Option String := none
  fallback_venues : Option (List String) := none
  estimated_slippage_bps : Option JQ := none
  estimated_price_impact_bps : Option JQ := none
  recommended_max_slippage_bps : Option JQ := none
  recommended_split_count : Option ℕ := none
  safety_parameters : Option SafetyParameters := none
  warnings : Option (List String) := none
  regime : Option Regime := none
  alerts : Option (List Alert) := none
  stats : Option IntelStats := none
  watchlist_summary : Option (List (String × WatchNote)) := none
  evidence : Option (List Evidence) := none
  assumptions : Option (List String) := none
  error : Option Bool := none
  message : Option String := none
  timestamp_utc : String := ""

/-- `invalidDeliverable(jobName, validation)`. -/
def invalidDeliverable (jobName : String) (validation : ValidationResult)
    (now : String) : Deliverable where
  job_name := jobName
  agent_version := some AGENT_VERSION
  chain := some (.str ACP_CHAIN)
  validation_passed := false
  validation_errors := validation.errors
  decision := some "REJECT"
  risk_score := some (jq 0)
  recommended_size_factor := some (jq 0)
  confidence_level := some "low"
  key_risks := some ["Input validation failed; no analysis performed."]
  evidence := some []
  assumptions := some ["No analysis performed due to invalid input."]
  timestamp_utc := now

/- ------------------------------------------------------------------ -/
/- Provider one: pre-trade builder                                     -/
/- ------------------------------------------------------------------ -/

/-- Promote a stored integer field (possibly NaN) to a JavaScript number. -/
def jqOfInt (i : Option ℤ) : JQ := i.map (fun n => (n : ℚ))

/-- `estSlipBps`: the chosen venue's estimate, or the conservative fallback
`clamp(Math.round((notional / 50000) * 80), 15, 180)` — the expression is
shared verbatim by the pre-trade builder (line 357) and the
execution-quote builder (line 498). -/
def estSlipBpsOr (notional : JQ) (best : Option Venue) : JQ :=
  match best.bind (fun b => b.estimated_slippage_bps) with
  | some e => some e
  | none => jqClamp (jqRound (jqMul (jqDiv notional (jq 50000)) (jq 80))) 15 180

/-- `sizeScore = clamp(Math.round((notional / 100000) * 25), 0, 35)`. -/
def preTradeSizeScore (notional : JQ) : JQ :=
  jqClamp (jqRound (jqMul (jqDiv notional (jq 100000)) (jq 25))) 0 35

/-- `slipScore = clamp(Math.round((estSlipBps / 100) * 40), 5, 45)`. -/
def preTradeSlipScore (estSlipBps : JQ) : JQ :=
  jqClamp (jqRound (jqMul (jqDiv estSlipBps (jq 100)) (jq 40))) 5 45

/-- `gasScore`: 18 for high congestion, 10 for elevated, 6 otherwise. -/
def preTradeGasScore (congestion : String) : ℚ :=
  if congestion = "high" then 18 else if congestion = "elevated" then 10 else 6

/-- `levScore = leverage > 1 ? clamp(Math.round((leverage - 1) * 20), 0, 30) : 0`. -/
def preTradeLevScore (leverage : JQ) : JQ :=
  if jqGt leverage (jq 1) then
    jqClamp (jqRound (jqMul (jqSub leverage (jq 1)) (jq 20))) 0 30
  else jq 0

/-- `riskScore = clamp(sizeScore + slipScore + gasScore + levScore, 0, 100)`. -/
def preTradeRiskScore (notional estSlipBps : JQ) (congestion : String)
    (leverage : JQ) : JQ :=
  jqClamp
    (jqAdd (jqAdd (jqAdd (preTradeSizeScore notional) (preTradeSlipScore estSlipBps))
        (jq (preTradeGasScore congestion)))
      (preTradeLevScore leverage))
    0 100

/-- The pre-trade decision ladder, lines 373-385 of the source: start at
APPROVE/1.0; overwrite with SIZE_DOWN and the clamped ratio when the
estimate exceeds the cap; overwrite with REJECT/0 when the score reaches
80. Returns `(decision, sizeFactor)`. -/
def preTradeDecision (estSlipBps : JQ) (maxSlip : Option ℤ) (riskScore : JQ) :
    String × JQ :=
  let d1 : String × JQ :=
    if jqGt estSlipBps (jqOfInt maxSlip) then
      ("SIZE_DOWN", jqClamp (jqDiv (jqOfInt maxSlip) estSlipBps) (Rat.divInt 1 5) (Rat.divInt 4 5))
    else ("APPROVE", jq 1)
  if jqGe riskScore (jq 80) then ("REJECT", jq 0) else d1

/-- `recommendedMaxSlip = Math.min(cap, Math.max(20, Math.round(est * 0.85)))`
(the same expression appears in the pre-trade and execution-quote builders). -/
def recommendedMaxSlip (maxSlip : Option ℤ) (estSlipBps : JQ) : JQ :=
  jqMin (jqOfInt maxSlip) (jqMax (jq 20) (jqRound (jqMul estSlipBps (jq (Rat.divInt 17 20)))))

/-- `buildPreTradeRiskPackDeliverable(req, validation)` with the two fetch
outcomes supplied as parameters and `now` the timestamp. -/
def buildPreTradeRiskPackDeliverable (req : PreTradeNorm)
    (validation : ValidationResult) (gasF : GasFetch) (depthF : DepthFetch)
    (now : String) : Deliverable :=
  if !validation.ok then invalidDeliverable "pre_trade_risk_pack" validation now
  else
    let gasR := fetchBaseGasProfile gasF
    let depthR := fetchBaseVenueDepth depthF
    let evidence := gasR.1 ++ depthR.1
    let confidence := confidenceFromEvidence evidence
    let venues := (depthR.2.map (fun d => d.venues)).getD []
    let best := bestOf depthF
    let assumptions : List String :=
      if best.isNone then
        ["No venue depth returned from subgraphs. Falling back to conservative estimates."]
      else []
    let estSlipBps := estSlipBpsOr req.notional_value_usd best
    let depthUsd : JQ := match best.bind (fun b => b.depth_usd) with
      | some d => some d
      | none => jq 300000
    let congestion : String := congestionOf gasF
    let smf : JSValue := (gasR.2.map (fun g => g.suggested_max_fee_gwei)).getD .undefined
    let suggestedMaxFeeWei : JQ :=
      if !smf.isNullish then jqMul (jsNumber smf) (jq 1000000000)
      else jq 2500000000
    let riskScore := preTradeRiskScore req.notional_value_usd estSlipBps congestion
      req.leverage
    let decisionPair := preTradeDecision estSlipBps req.max_slippage_bps riskScore
    let decision := decisionPair.1
    let sizeFactor := decisionPair.2
    let splitCount : ℕ :=
      if jqGt req.notional_value_usd (jq 75000) then 3
      else if jqGt req.notional_value_usd (jq 30000) then 2 else 1
    let recMaxSlip := recommendedMaxSlip req.max_slippage_bps estSlipBps
    let keyRisks : List String :=
      (if jqGe estSlipBps (jq 60) then
        ["Slippage increases materially at this size; split execution recommended."]
       else []) ++
      (if congestion = "elevated" || congestion = "high" then
        ["Gas regime elevated; prefer batching or waiting for calmer blocks."]
       else []) ++
      (if jqGt req.leverage (jq 1) then
        ["Leverage amplifies liquidation and execution sensitivity."]
       else []) ++
      (if best.isNone then
        ["Venue depth data unavailable; results rely on conservative fallback."]
       else [])
    let fallbackVenues := (venues.map (fun v => v.venue)).filter
      (fun v => v ≠ "" && (match best with | some b => v ≠ b.venue | none => true))
    let bestVenueName : String := (best.map (fun b => b.venue)).getD ""
    let recommendedVenue : String :=
      if bestVenueName ≠ "" then bestVenueName
      else if req.execution_venue ≠ "" then req.execution_venue
      else "unknown"
    let assetInUp := toUpperStr (jsToString req.asset_in)
    let assetOutUp := toUpperStr (jsToString req.asset_out)
    let medianFee : JSValue := (gasR.2.map (fun g => g.median_priority_fee_gwei)).getD .undefined
    let baseFee : JSValue := (gasR.2.map (fun g => g.base_fee_gwei)).getD .undefined
    let costEst : JSValue := (gasR.2.map (fun g => g.cost_estimates)).getD .undefined
    { job_name := "pre_trade_risk_pack"
      agent_version := some AGENT_VERSION
      chain := some req.chain
      validation_passed := true
      validation_errors := []
      decision := some decision
      risk_score := some riskScore
      recommended_size_factor := some (sizeFactor.map toFixed2)
      confidence_level := some confidence
      key_risks := some keyRisks
      execution_plan := some
        { recommended_venue := recommendedVenue
          fallback_venues :=
            if fallbackVenues.length ≠ 0 then fallbackVenues
            else (["uniswap_v3", "aerodrome"].filter
              (fun v => match best with | some b => v ≠ b.venue | none => true))
          recommended_split_count := splitCount
          recommended_max_slippage_bps := recMaxSlip
          deadline_seconds := 180
          notes :=
            if decision = "APPROVE" then
              "Proceed with standard protection parameters."
            else if decision = "SIZE_DOWN" then
              "Reduce size and/or split into clips; re-check depth if market moves."
            else
              "Do not execute under current conditions without explicit risk sign-off." }
      liquidity_analysis := some
        { pair := s!"{assetInUp}/{assetOutUp}"
          notional_usd := req.notional_value_usd
          best_by_depth := best
          venues_considered := venues
          estimated_liquidity_depth_usd := depthUsd
          estimated_slippage_bps_at_size := estSlipBps
          price_impact_estimate_bps := jqClamp (jqRound (jqMul estSlipBps (jq (Rat.divInt 7 10)))) 5 250 }
      gas_analysis := some
        { congestion_level := congestion
          suggested_max_fee_gwei := if smf.isNullish then .null else smf
          median_priority_fee_gwei := if medianFee.isNullish then .null else medianFee
          base_fee_gwei := if baseFee.isNullish then .null else baseFee
          estimated_gas_units := 180000
          estimated_gas_price_wei := jqRound suggestedMaxFeeWei
          cost_estimates := if costEst.truthy then costEst else .null }
      scenario_analysis := some
        [ { scenario := "gas_spike_30pct"
            impact := "Higher inclusion cost; can reduce net edge on small-margin trades."
            recommendation :=
              if req.urgency = "high" then "Proceed but accept higher cost."
              else "Wait or split order." },
          { scenario := "liquidity_drop_20pct"
            impact := "Slippage can exceed cap at full size."
            recommendation := "Increase split count and re-run base_venue_depth before each clip." },
          { scenario := "fast_price_move"
            impact := "MinOut may be hit; trade could revert under tight slippage."
            recommendation := "Split execution and re-quote each clip." } ]
      evidence := some evidence
      assumptions := some (if assumptions.length ≠ 0 then assumptions
                           else ["No additional assumptions."])
      timestamp_utc := now }

/- ------------------------------------------------------------------ -/
/- Provider one: execution-quote and market-intel builders             -/
/- ------------------------------------------------------------------ -/

/-- The sort key `Number(v.depth_usd || 0)` of the execution-quote venue
ranking. -/
def depthKey (v : Venue) : ℚ := v.depth_usd.getD 0

/-- The execution-quote venue ranking: venues filtered to the caller's
allowed set (when non-empty) and sorted by descending `depth_usd`. -/
def rankedOf (req : ExecQuoteNorm) (depthF : DepthFetch) : List Venue :=
  let venues := ((fetchBaseVenueDepth depthF).2.map (fun d => d.venues)).getD []
  let allowed := (req.allowed_venues.getD []).map (fun v => toLowerStr v)
  (venues.filter
    (fun v => allowed.isEmpty || allowed.contains (toLowerStr v.venue))).mergeSort
    (fun a b => decide (depthKey a ≥ depthKey b))

/-- `chosen = ranked[0] || best || null` of the execution-quote builder. -/
def chosenOf (req : ExecQuoteNorm) (depthF : DepthFetch) : Option Venue :=
  match (rankedOf req depthF).head? with
  | some c => some c
  | none => bestOf depthF

/-- `buildExecutionQuoteAndRouteDeliverable(req, validation)` with the
depth-fetch outcome as a parameter. -/
def buildExecutionQuoteAndRouteDeliverable (req : ExecQuoteNorm)
    (validation : ValidationResult) (depthF : DepthFetch) (now : String) :
    Deliverable :=
  if !validation.ok then invalidDeliverable "execution_quote_and_route" validation now
  else
    let depthR := fetchBaseVenueDepth depthF
    let evidence := depthR.1
    let ranked := rankedOf req depthF
    let chosen : Option Venue := chosenOf req depthF
    let fallback := ((ranked.drop 1).take 3).map (fun v => v.venue) |>.filter
      (fun v => v ≠ "")
    let estSlip := estSlipBpsOr req.notional_value_usd chosen
    let impact := jqClamp (jqRound (jqMul estSlip (jq (Rat.divInt 7 10)))) 5 250
    let warnings : List String :=
      (if chosen.isNone then ["No venue depth returned; using fallback estimates."]
       else []) ++
      (if jqGt estSlip (jqOfInt req.max_slippage_bps) then
        ["Estimated slippage may exceed cap; reduce size or split."]
       else [])
    let split : ℕ :=
      if jqGt req.notional_value_usd (jq 60000) then 3
      else if jqGt req.notional_value_usd (jq 25000) then 2 else 1
    let recMaxSlip := recommendedMaxSlip req.max_slippage_bps estSlip
    let chosenVenueName : String := (chosen.map (fun c => c.venue)).getD ""
    { job_name := "execution_quote_and_route"
      agent_version := some AGENT_VERSION
      chain := some req.chain
      validation_passed := true
      validation_errors := []
      best_venue := some (if chosenVenueName ≠ "" then chosenVenueName else "unknown")
      fallback_venues := some
        (if fallback.length ≠ 0 then fallback
         else (["aerodrome", "uniswap_v3"].filter
           (fun v => match chosen with | some c => v ≠ c.venue | none => true)))
      estimated_slippage_bps := some (jqRound estSlip)
      estimated_price_impact_bps := some impact
      recommended_max_slippage_bps := some recMaxSlip
      recommended_split_count := some split
      safety_parameters := some
        { deadline_seconds := req.deadline_seconds
          min_out_strategy := "minOut = quote * (1 - recommended_max_slippage_bps/10000)"
          retry_policy := "If revert due to slippage, reduce size by 20% and retry once." }
      warnings := some warnings
      evidence := some evidence
      timestamp_utc := now }

/-- `buildMarketIntelDeliverable(req, validation)` of provider one, with
the gas-fetch outcome as a parameter. -/
def buildMarketIntelDeliverable (req : MarketIntelNorm)
    (validation : ValidationResult) (gasF : GasFetch) (now : String) :
    Deliverable :=
  if !validation.ok then invalidDeliverable "market_intelligence_feed" validation now
  else
    let gasR := fetchBaseGasProfile gasF
    let evidence := gasR.1
    let congestion : String := congestionOf gasF
    let vr : JSValue :=
      (gasR.2.map (fun g => g.variance_hint_volatility_ratio)).getD .undefined
    let volatility : JQ := if vr.isNullish then jq 0 else jsNumber vr
    let alerts : List Alert :=
      if jqGt volatility (jq (Rat.divInt 1 4)) then
        [ { id := "gas_variance"
            severity := if jqGt volatility (jq (Rat.divInt 1 2)) then "high" else "medium"
            title := "Gas variance elevated vs recent median"
            description := "Fee variance is elevated; execution cost and inclusion may fluctuate."
            recommended_action :=
              if req.severity_floor = "high" || req.severity_floor = "critical" then
                "If urgent, proceed with higher max fee; otherwise split or wait."
              else "Wait or split execution to reduce revert/cost risk." } ]
      else []
    let watchlist := (req.focus_assets.getD []).map
      (fun item => (item, WatchNote.mk "normal" false))
    { job_name := "market_intelligence_feed"
      agent_version := some AGENT_VERSION
      chain := some req.chain
      validation_passed := true
      validation_errors := []
      regime := some
        { gas_regime := congestion
          liquidity_regime := "venue-specific"
          risk_note :=
            if congestion = "high" then
              "Network stress detected; reduce clip size, widen timing window, and be careful with tight slippage."
            else if congestion = "elevated" then
              "Moderate congestion; standard execution with mild caution."
            else "No broad network stress detected; normal execution recommended." }
      alerts := some alerts
      stats := some
        { lookback_minutes := req.lookback_minutes
          minimum_notional_usd := req.minimum_notional_usd
          alerts_count := alerts.length
          data_freshness_seconds := 60
          coverage := ["resources/base-gas-profile"] }
      watchlist_summary := some watchlist
      evidence := some evidence
      timestamp_utc := now }

/- ------------------------------------------------------------------ -/
/- Provider one: job dispatcher and delivery phase                     -/
/- ------------------------------------------------------------------ -/

/-- `buildDeliverableForJob(jobName, requirement)` of provider one, with
both fetch outcomes and the timestamp as parameters. -/
def buildDeliverableForJob (gasF : GasFetch) (depthF : DepthFetch) (now : String)
    (jobName : String) (requirement : JSValue) : Deliverable :=
  let reqD := if requirement.truthy then requirement else .obj []
  if jobName = "pre_trade_risk_pack" then
    let r := validatePreTradeRiskPack reqD
    buildPreTradeRiskPackDeliverable r.2 r.1 gasF depthF now
  else if jobName = "execution_quote_and_route" then
    let r := validateExecutionQuoteAndRoute reqD
    buildExecutionQuoteAndRouteDeliverable r.2 r.1 depthF now
  else if jobName = "market_intelligence_feed" then
    let r := validateMarketIntel reqD
    buildMarketIntelDeliverable r.2 r.1 gasF now
  else
    { job_name := if jobName ≠ "" then jobName else "unknown"
      agent_version := some AGENT_VERSION
      chain := some (.str ACP_CHAIN)
      validation_passed := false
      validation_errors := ["Unknown or unsupported job_name."]
      error := some true
      message := some "Unsupported job. Use: pre_trade_risk_pack, execution_quote_and_route, market_intelligence_feed"
      timestamp_utc := now }

/-- One entry of the in-memory `jobCache` `Map`. -/
structure CachedJob where
  jobName : String
  requirement : JSValue

/-- `jobCache.get(jobId)`: the cached entry, if any. -/
def jobCacheGet (cache : List (String × CachedJob)) (jobId : String) :
    Option CachedJob :=
  ((cache.find? (fun p => p.1 = jobId)).map (fun p => p.2))

/-- The delivery branch of `onNewTask` (memo `nextPhase === 3`):
`cached = jobCache.get(job.id) || {}`, `jobName = cached.jobName || "unknown"`,
`requirement = cached.requirement || {}`, then `buildDeliverableForJob`. -/
def deliverPhase (cache : List (String × CachedJob)) (gasF : GasFetch)
    (depthF : DepthFetch) (now : String) (jobId : String) : Deliverable :=
  let cached := jobCacheGet cache jobId
  let jobName : String := match cached with
    | some c => if c.jobName ≠ "" then c.jobName else "unknown"
    | none => "unknown"
  let requirement : JSValue := match cached with
    | some c => if c.requirement.truthy then c.requirement else .obj []
    | none => .obj []
  buildDeliverableForJob gasF depthF now jobName requirement

/- ------------------------------------------------------------------ -/
/- Provider two (part_001)                                             -/
/- ------------------------------------------------------------------ -/

/-- Embed a JavaScript number back into a `JSValue` (for object fields the
source stores computed numbers in). -/
def jqVal : JQ → JSValue
  | some q => .num q
  | none => .nnum

/-- One `findings`/`issues` entry of provider two. -/
structure Finding where
  id : String
  severity : String
  description : String
  mitigation : String

/-- A provider-two deliverable: the union of the fields its six builder
paths produce. Advisory composite objects (`summary`, `coverage`, `stats`,
`risk_summary` and the entries of the remaining arrays) are embedded as
`JSValue` object literals in source field order; `none` means the builder
did not put the key on the object. -/
structure Deliverable2 where
  job_name : String
  decision : Option String := none
  risk_score : Option JQ := none
  recommended_size_factor : Option JQ := none
  validation_passed : Bool := false
  validation_errors : List String := []
  findings : Option (List Finding) := none
  issues : Option (List Finding) := none
  risk_rating : Option String := none
  checklist : Option (List String) := none
  recommended_gas_price_wei : Option JSValue := none
  suggested_priority : Option JSValue := none
  notes : Option String := none
  signals : Option (List JSValue) := none
  stats : Option JSValue := none
  recommended_trades : Option (List JSValue) := none
  risk_summary : Option JSValue := none
  resulting_allocations : Option (List JSValue) := none
  summary : Option JSValue := none
  methodology : Option String := none
  coverage : Option JSValue := none
  remediation_plan : Option (List JSValue) := none
  open_questions : Option (List String) := none
  error : Option Bool := none
  message : Option String := none
  timestamp_utc : String := ""

namespace V2

/-- Provider two's `isPositiveNumber`: a native finite number `> 0`
(strings are never numbers here). -/
def isPositiveNumber : JSValue → Bool
  | .num q => decide (0 < q)
  | _ => false

/-- Provider two's `isNonNegativeNumber`. -/
def isNonNegativeNumber : JSValue → Bool
  | .num q => decide (0 ≤ q)
  | _ => false

/-- Provider two's `oneOf(v, allowed)`: `allowed.includes(v)` on a raw
value, so only a string can match. -/
def oneOf (v : JSValue) (allowed : List String) : Bool :=
  match v with
  | .str s => allowed.contains s
  | _ => false

/-- Provider two's `severityWeight` (defined in the source; referenced by
no validator or builder). -/
def severityWeight (sev : String) : ℕ :=
  if sev = "critical" then 5
  else if sev = "high" then 4
  else if sev = "medium" then 3
  else if sev = "low" then 2
  else if sev = "info" then 1
  else 0

/-- Numeric comparison `v > c` on a raw field (JavaScript coerces; every
use sits behind a validation gate that guarantees a native number). -/
def numGt (v : JSValue) (c : ℚ) : Bool := jqGt (jsNumber v) (jq c)

/-- Numeric comparison `v < c` on a raw field (only evaluated by the
source after a number check). -/
def numLt (v : JSValue) (c : ℚ) : Bool :=
  match v with
  | .num q => decide (q < c)
  | _ => false

/-- `v || d` on raw values. -/
def jsOr (v d : JSValue) : JSValue := if v.truthy then v else d

/-- A `{checked, triggered}` coverage entry. -/
def covItem (checked triggered : Bool) : JSValue :=
  .obj [("checked", .bool checked), ("triggered", .bool triggered)]

/-- `validateRiskSentinel(req)`: provider two validators never mutate the
requirement. -/
def validateRiskSentinel (req : JSValue) : ValidationResult :=
  let e1 := if isNonEmptyString (req.get "client_agent_id") then []
            else [pushErr "client_agent_id" "must be a non-empty string"]
  let e2 := if isNonEmptyString (req.get "asset_pair") then []
            else [pushErr "asset_pair" "must be a non-empty string like 'USDC/WETH'"]
  let e3 := if isNonEmptyString (req.get "side")
               && oneOf (req.get "side") ["buy", "sell", "long", "short"] then []
            else [pushErr "side" "must be one of 'buy', 'sell', 'long', 'short'"]
  let e4 := if isPositiveNumber (req.get "notional_value_usd") then []
            else [pushErr "notional_value_usd" "must be a positive number in USD"]
  let e5 := if isNonEmptyString (req.get "execution_venue") then []
            else [pushErr "execution_venue" "must be a non-empty string (e.g. 'uniswap_v3')"]
  let e6 := if isNonEmptyString (req.get "chain")
               && oneOf (req.get "chain")
                 ["base", "ethereum-mainnet", "arbitrum", "optimism", "polygon"] then []
            else [pushErr "chain"
                    "must be one of: base, ethereum-mainnet, arbitrum, optimism, polygon"]
  let e7 := if isPositiveNumber (req.get "leverage")
               && !(numLt (req.get "leverage") 1) then []
            else [pushErr "leverage" "must be >= 1 (use 1 for spot/no leverage)"]
  let errors := e1 ++ e2 ++ e3 ++ e4 ++ e5 ++ e6 ++ e7
  ⟨errors.isEmpty, errors⟩

/-- `buildRiskSentinelDeliverable(req, validation)`. -/
def buildRiskSentinelDeliverable (req : JSValue) (validation : ValidationResult)
    (now : String) : Deliverable2 :=
  if !validation.ok then
    { job_name := "risk_sentinel"
      decision := some "reject"
      risk_score := some (jq 0)
      recommended_size_factor := some (jq 0)
      validation_passed := false
      validation_errors := validation.errors
      findings := some
        [ { id := "invalid_input"
            severity := "critical"
            description := "The request parameters did not pass strict validation. See validation_errors for details."
            mitigation := "Correct the invalid fields and re-submit the risk_sentinel job." } ]
      summary := some (.obj
        [ ("overall_risk_level", .str "invalid"),
          ("reason", .str "Input validation failed; no risk evaluation performed.") ])
      methodology := some "Pre-trade risk evaluation was not performed because one or more required fields were invalid."
      coverage := some (.obj
        [ ("schema_validation", covItem true true),
          ("chain_whitelist", covItem true false),
          ("leverage_bounds", covItem true false),
          ("notional_bounds", covItem true false) ])
      remediation_plan := some
        [ .obj [ ("id", .str "fix_invalid_fields"), ("priority", .num 1),
                 ("severity", .str "critical"),
                 ("action", .str "Review validation_errors, correct invalid or missing parameters, and re-run the risk_sentinel job.") ] ]
      open_questions := some
        [ "Is the calling client_agent_id correctly configured and authorized for this agent?",
          "Are you certain the intended chain and venue are supported for execution?" ]
      timestamp_utc := now }
  else
    let leverageImpact := jqMul (jqSub (jsNumber (req.get "leverage")) (jq 1)) (jq 10)
    let sizeImpact := jqMul
      (jqMin (jqDiv (jsNumber (req.get "notional_value_usd")) (jq 100000)) (jq 3))
      (jq 10)
    let riskScore := jqMin (jq 100)
      (jqRound (jqAdd (jqAdd (jq 20) leverageImpact) sizeImpact))
    let decisionPair : String × JQ :=
      if jqGe riskScore (jq 80) then ("reject", jq 0)
      else if jqGe riskScore (jq 60) then ("reduce", jq (Rat.divInt 1 2))
      else ("approve", jq 1)
    let decision := decisionPair.1
    let sizeFactor := decisionPair.2
    let severity : String :=
      if jqGe riskScore (jq 80) then "high"
      else if jqGe riskScore (jq 60) then "high"
      else if jqGe riskScore (jq 40) then "medium"
      else "low"
    let rp1 : List JSValue :=
      if decision ≠ "approve" then
        [ .obj [ ("id", .str "reduce_notional"), ("priority", .num 1),
                 ("severity", .str "high"),
                 ("action", .str "Reduce notional_value_usd and/or leverage and re-run risk evaluation to move into an acceptable risk band.") ] ]
      else []
    { job_name := "risk_sentinel"
      decision := some decision
      risk_score := some riskScore
      recommended_size_factor := some sizeFactor
      validation_passed := true
      validation_errors := []
      findings := some
        [ { id := "base_risk_sentinel_eval"
            severity := severity
            description := "Pre-trade risk analysis based on notional size, leverage, chain and venue, classified into an overall risk level."
            mitigation :=
              if decision = "approve" then
                "Proceed with standard risk controls and monitoring."
              else if decision = "reduce" then
                "Lower position size or leverage and re-submit to fit within defined risk appetite."
              else
                "Avoid opening this position under current parameters or require explicit risk sign-off." } ]
      summary := some (.obj
        [ ("asset_pair", req.get "asset_pair"),
          ("side", req.get "side"),
          ("chain", req.get "chain"),
          ("leverage", req.get "leverage"),
          ("notional_value_usd", req.get "notional_value_usd"),
          ("overall_risk_level", .str severity),
          ("risk_score", jqVal riskScore),
          ("decision", .str decision),
          ("recommended_size_factor", jqVal sizeFactor),
          ("execution_venue", req.get "execution_venue") ])
      methodology := some "Heuristic pre-trade risk model combining notional size, leverage, chain characteristics and execution venue. This is not a VaR engine or regulatory capital model."
      coverage := some (.obj
        [ ("schema_validation", covItem true false),
          ("chain_whitelist", covItem true false),
          ("leverage_bounds", covItem true (numGt (req.get "leverage") 3)),
          ("notional_bounds", covItem true (numGt (req.get "notional_value_usd") 500000)),
          ("side_supported", covItem true false) ])
      remediation_plan := some (rp1 ++
        [ .obj [ ("id", .str "diversify_exposure"),
                 ("priority", .num (rp1.length + 1)),
                 ("severity", .str "medium"),
                 ("action", .str "Consider spreading exposure across time or venues instead of concentrating in a single large trade.") ] ])
      open_questions := some
        [ "How does this position relate to the client's existing portfolio and concentration limits?",
          "Is this trade part of a larger strategy (e.g., hedging, basis trade, yield enhancement) that alters its effective risk?",
          "What is the maximum acceptable drawdown or liquidation risk for this specific client?" ]
      timestamp_utc := now }

/-- `validateGasExecution(req)`. -/
def validateGasExecution (req : JSValue) : ValidationResult :=
  let e1 := if isNonEmptyString (req.get "client_agent_id") then []
            else [pushErr "client_agent_id" "must be a non-empty string"]
  let e2 := if isNonEmptyString (req.get "chain") then []
            else [pushErr "chain" "must be a non-empty string"]
  let e3 := if isNonEmptyString (req.get "transaction_type")
               && oneOf (req.get "transaction_type")
                 ["swap", "liquidity_add", "rebalance", "leverage_open"] then []
            else [pushErr "transaction_type"
                    "must be one of swap, liquidity_add, rebalance, leverage_open"]
  let e4 := if isNonEmptyString (req.get "urgency")
               && oneOf (req.get "urgency") ["low", "normal", "high"] then []
            else [pushErr "urgency" "must be one of low, normal, high"]
  let e5 := if isPositiveNumber (req.get "expected_notional_usd") then []
            else [pushErr "expected_notional_usd" "must be a positive number"]
  let e6 := if isNonNegativeNumber (req.get "current_gas_price_wei") then []
            else [pushErr "current_gas_price_wei"
                    "must be a non-negative number (0 allowed for unknown)"]
  let errors := e1 ++ e2 ++ e3 ++ e4 ++ e5 ++ e6
  ⟨errors.isEmpty, errors⟩

/-- `buildGasExecutionDeliverable(req, validation)`. The invalid branch
carries `recommended_gas_price_wei: null` and `suggested_priority: null`
and no decision or risk-score field at all. -/
def buildGasExecutionDeliverable (req : JSValue) (validation : ValidationResult)
    (now : String) : Deliverable2 :=
  if !validation.ok then
    { job_name := "gas_execution_optimizer"
      validation_passed := false
      validation_errors := validation.errors
      recommended_gas_price_wei := some .null
      suggested_priority := some .null
      notes := some "Request did not pass validation. See validation_errors."
      summary := some (.obj
        [ ("overall_status", .str "invalid"),
          ("reason", .str "Input validation failed; no gas recommendation produced.") ])
      methodology := some "Gas optimization was not performed due to invalid or missing parameters."
      coverage := some (.obj
        [ ("schema_validation", covItem true true),
          ("urgency_adjustment", covItem false false),
          ("baseline_present", covItem false false) ])
      open_questions := some
        [ "Is the provided chain identifier consistent with the execution environment?",
          "Can you supply a recent baseline gas price snapshot from your infra?" ]
      timestamp_utc := now }
  else
    let baseGas : JQ :=
      if isPositiveNumber (req.get "current_gas_price_wei") then
        jsNumber (req.get "current_gas_price_wei")
      else jq 20000000000
    let multiplier : ℚ :=
      match req.get "urgency" with
      | .str s => if s = "low" then Rat.divInt 9 10 else if s = "high" then Rat.divInt 6 5 else 1
      | _ => 1
    let recommendedGas := jqRound (jqMul baseGas (jq multiplier))
    { job_name := "gas_execution_optimizer"
      validation_passed := true
      validation_errors := []
      recommended_gas_price_wei := some (jqVal recommendedGas)
      suggested_priority := some (req.get "urgency")
      notes := some "Gas recommendation based on urgency and provided baseline. This is a heuristic, not a guarantee of inclusion."
      summary := some (.obj
        [ ("chain", req.get "chain"),
          ("transaction_type", req.get "transaction_type"),
          ("urgency", req.get "urgency"),
          ("expected_notional_usd", req.get "expected_notional_usd"),
          ("baseline_gas_price_wei", jqVal baseGas),
          ("recommended_gas_price_wei", jqVal recommendedGas) ])
      methodology := some "Heuristic gas recommendation based on a baseline gas value and urgency multiplier. It does not inspect mempool or use live gas auction data."
      coverage := some (.obj
        [ ("schema_validation", covItem true false),
          ("urgency_adjustment",
            covItem true (match req.get "urgency" with
                          | .str s => s ≠ "normal"
                          | _ => true)),
          ("baseline_present",
            covItem true (isPositiveNumber (req.get "current_gas_price_wei"))) ])
      open_questions := some
        [ "Do you have max-fee and max-priority-fee constraints that should bound this recommendation?",
          "Should large notional or critical operations (e.g., governance actions) receive a higher default gas multiplier?" ]
      timestamp_utc := now }

/-- `validateStrategyAudit(req)`. -/
def validateStrategyAudit (req : JSValue) : ValidationResult :=
  let e1 := if isNonEmptyString (req.get "client_agent_id") then []
            else [pushErr "client_agent_id" "must be a non-empty string"]
  let e2 := if isNonEmptyString (req.get "strategy_name") then []
            else [pushErr "strategy_name" "must be a non-empty string"]
  let e3 := if isNonEmptyString (req.get "chain") then []
            else [pushErr "chain" "must be a non-empty string"]
  let e4 := if isNonEmptyString (req.get "strategy_description") then []
            else [pushErr "strategy_description"
                    "must be a non-empty description of the strategy"]
  let e5 :=
    match req.get "contracts_involved" with
    | .arr xs =>
        if xs.length = 0 then
          [pushErr "contracts_involved"
            "must be a non-empty array of contract addresses or identifiers"]
        else
          (xs.enum.filterMap (fun p =>
            if isNonEmptyString p.2 then none
            else
              let idx := p.1
              some (pushErr s!"contracts_involved[{idx}]" "must be a non-empty string")))
    | _ => [pushErr "contracts_involved"
              "must be a non-empty array of contract addresses or identifiers"]
  let e6 := if isPositiveNumber (req.get "max_leverage")
               && !(numLt (req.get "max_leverage") 1) then []
            else [pushErr "max_leverage" "must be >= 1"]
  let e7 := if isNonNegativeNumber (req.get "target_yield_apy") then []
            else [pushErr "target_yield_apy" "must be a non-negative number (percent APY)"]
  let errors := e1 ++ e2 ++ e3 ++ e4 ++ e5 ++ e6 ++ e7
  ⟨errors.isEmpty, errors⟩

/-- `buildStrategyAuditDeliverable(req, validation)`. The invalid branch
has `risk_rating: "invalid"` and no decision or risk-score field. -/
def buildStrategyAuditDeliverable (req : JSValue) (validation : ValidationResult)
    (now : String) : Deliverable2 :=
  if !validation.ok then
    { job_name := "strategy_safety_audit"
      validation_passed := false
      validation_errors := validation.errors
      risk_rating := some "invalid"
      issues := some
        [ { id := "invalid_input"
            severity := "critical"
            description := "The strategy description or parameters were invalid. See validation_errors."
            mitigation := "Correct the invalid fields and re-run the safety audit." } ]
      checklist := some []
      summary := some (.obj
        [ ("overall_risk_level", .str "invalid"),
          ("reason", .str "Input validation failed; no safety analysis performed.") ])
      methodology := some "Strategy risk assessment was skipped because the basic structural requirements for the job were not satisfied."
      coverage := some (.obj
        [ ("schema_validation", covItem true true),
          ("leverage_analysis", covItem false false),
          ("yield_sanity_check", covItem false false),
          ("contract_enumeration", covItem false false) ])
      remediation_plan := some
        [ .obj [ ("id", .str "fix_strategy_input"), ("priority", .num 1),
                 ("severity", .str "critical"),
                 ("action", .str "Review validation_errors, complete missing fields such as contracts_involved and strategy_description, then re-run the audit.") ] ]
      open_questions := some
        [ "Is there a reference implementation or architecture diagram for this strategy?",
          "Has this strategy been tested in a paper-trading or sandbox environment before real funds?" ]
      timestamp_utc := now }
  else
    let ml := req.get "max_leverage"
    let ty := req.get "target_yield_apy"
    let contractsLen := (req.get "contracts_involved").elems.length
    let riskPair1 : String × ℕ :=
      if numGt ml 2 || numGt ty 20 then ("medium", 20 + 20) else ("low", 20)
    let riskPair2 : String × ℕ :=
      if numGt ml 3 || numGt ty 40 then ("high", riskPair1.2 + 30) else riskPair1
    let risk := riskPair2.1
    let riskScore : ℕ := min 100 (riskPair2.2 + min (contractsLen * 5) 20)
    let issues : List Finding :=
      (if numGt ml 2 then
        [ { id := "leverage_exposure"
            severity := if numGt ml 3 then "high" else "medium"
            description := "Strategy uses elevated leverage, increasing liquidation and volatility risk."
            mitigation := "Consider lowering max_leverage or adding stricter health factor constraints." } ]
       else []) ++
      (if numGt ty 30 then
        [ { id := "yield_expectations"
            severity := "medium"
            description := "Target APY is unusually high, which can indicate hidden risk, unsustainable emissions, or smart contract risk."
            mitigation := "Stress-test the strategy under adverse scenarios and do independent contract audits for all protocols involved." } ]
       else [])
    let rp1 : List JSValue :=
      if risk ≠ "low" then
        [ .obj [ ("id", .str "reduce_leverage_or_yield"), ("priority", .num 1),
                 ("severity", .str "high"),
                 ("action", .str "Lower max_leverage and/or target_yield_apy to align with tested, sustainable levels.") ] ]
      else []
    { job_name := "strategy_safety_audit"
      validation_passed := true
      validation_errors := []
      risk_rating := some risk
      issues := some issues
      checklist := some
        [ "Confirm protocol audit status for all contracts_involved.",
          "Test liquidation behavior under extreme volatility.",
          "Verify oracle sources and price feeds.",
          "Simulate gas and slippage under peak network load." ]
      summary := some (.obj
        [ ("strategy_name", req.get "strategy_name"),
          ("chain", req.get "chain"),
          ("contracts_involved_count", .num contractsLen),
          ("max_leverage", ml),
          ("target_yield_apy", ty),
          ("overall_risk_level", .str risk),
          ("risk_score", .num riskScore) ])
      methodology := some "Heuristic strategy safety assessment based on leverage, target yield, protocol fan-out and qualitative red flags. It does not simulate market scenarios or inspect on-chain code directly."
      coverage := some (.obj
        [ ("schema_validation", covItem true false),
          ("leverage_analysis", covItem true (numGt ml 2)),
          ("yield_sanity_check", covItem true (numGt ty 30)),
          ("contract_enumeration", covItem true (decide (contractsLen > 3))) ])
      remediation_plan := some (rp1 ++
        [ .obj [ ("id", .str "audit_protocols"),
                 ("priority", .num (rp1.length + 1)),
                 ("severity", .str "medium"),
                 ("action", .str "Ensure that all contracts_involved have up-to-date security audits and clearly documented upgrade/governance processes.") ] ])
      open_questions := some
        [ "What are the maximum acceptable drawdown and liquidation scenarios envisioned for this strategy?",
          "How correlated are the underlying protocols and assets during stress events?",
          "Is there a clear exit or unwind procedure if one of the core protocols becomes impaired?" ]
      timestamp_utc := now }

/-- `validateMarketIntel(req)` of provider two. -/
def validateMarketIntel (req : JSValue) : ValidationResult :=
  let e1 := if isNonEmptyString (req.get "client_agent_id") then []
            else [pushErr "client_agent_id" "must be a non-empty string"]
  let e2 := if isNonEmptyString (req.get "chain") then []
            else [pushErr "chain" "must be a non-empty string"]
  let e3 := if isPositiveNumber (req.get "lookback_minutes") then []
            else [pushErr "lookback_minutes" "must be a positive number"]
  let e4 := if isPositiveNumber (req.get "minimum_notional_usd") then []
            else [pushErr "minimum_notional_usd" "must be a positive number"]
  let e5 :=
    if !(req.get "focus_assets").isNullish then
      match req.get "focus_assets" with
      | .arr xs =>
          (xs.enum.filterMap (fun p =>
            if isNonEmptyString p.2 then none
            else
              let idx := p.1
              some (pushErr s!"focus_assets[{idx}]" "must be a non-empty string")))
      | _ => [pushErr "focus_assets" "must be an array of strings if provided"]
    else []
  let errors := e1 ++ e2 ++ e3 ++ e4 ++ e5
  ⟨errors.isEmpty, errors⟩

/-- `buildMarketIntelDeliverable(req, validation)` of provider two. -/
def buildMarketIntelDeliverable (req : JSValue) (validation : ValidationResult)
    (now : String) : Deliverable2 :=
  let focus : JSValue :=
    if (req.get "focus_assets").isArr && (req.get "focus_assets").elems.length > 0
    then req.get "focus_assets"
    else .arr [.str "ALL"]
  if !validation.ok then
    { job_name := "market_intelligence_feed"
      validation_passed := false
      validation_errors := validation.errors
      signals := some []
      stats := some (.obj
        [ ("events_considered", .num 0),
          ("focus_assets_count",
            .num (if (req.get "focus_assets").isArr
                  then (req.get "focus_assets").elems.length else 0)),
          ("lookback_minutes", jsOr (req.get "lookback_minutes") (.num 0)),
          ("minimum_notional_usd", jsOr (req.get "minimum_notional_usd") (.num 0)) ])
      summary := some (.obj
        [ ("chain", jsOr (req.get "chain") .null),
          ("focus_assets", focus),
          ("overall_status", .str "invalid") ])
      methodology := some "No chain data was scanned because the request parameters failed validation."
      open_questions := some
        [ "Which specific assets or protocols are you most interested in monitoring for large flows?",
          "Do you have thresholds for when a signal should trigger automated or manual action?" ]
      timestamp_utc := now }
  else
    let signals : List JSValue :=
      [ .obj
          [ ("id", .str "sample_flow_1"),
            ("severity", .str "info"),
            ("description", .str "Synthetic example: large swap activity observed in the focus universe during the lookback window."),
            ("notional_usd",
              jqVal (jqMul (jsNumber (req.get "minimum_notional_usd")) (jq 3))),
            ("chain", req.get "chain") ] ]
    { job_name := "market_intelligence_feed"
      validation_passed := true
      validation_errors := []
      signals := some signals
      stats := some (.obj
        [ ("events_considered", .num 42),
          ("focus_assets_count", .num focus.elems.length),
          ("lookback_minutes", req.get "lookback_minutes"),
          ("minimum_notional_usd", req.get "minimum_notional_usd") ])
      summary := some (.obj
        [ ("chain", req.get "chain"),
          ("focus_assets", focus),
          ("lookback_minutes", req.get "lookback_minutes"),
          ("minimum_notional_usd", req.get "minimum_notional_usd"),
          ("signals_count", .num signals.length) ])
      methodology := some "Synthetic market intelligence feed illustrating how large-flow signals would be structured. In a production deployment, this would be wired to on-chain data and custom filters."
      open_questions := some
        [ "Should signals be bucketed by venue (e.g., AMM vs orderbook) or by protocol risk tier?",
          "Do you want separate thresholds for buy vs sell pressure, or a single threshold for absolute flow?",
          "Should follow-up jobs (e.g., risk_sentinel) be triggered automatically when certain signals fire?" ]
      timestamp_utc := now }

/-- `validatePortfolioRebalancer(req)`. -/
def validatePortfolioRebalancer (req : JSValue) : ValidationResult :=
  let e1 := if isNonEmptyString (req.get "client_agent_id") then []
            else [pushErr "client_agent_id" "must be a non-empty string"]
  let e2 := if isNonEmptyString (req.get "chain") then []
            else [pushErr "chain" "must be a non-empty string"]
  let e3 :=
    match req.get "current_positions" with
    | .arr xs =>
        if xs.length = 0 then
          [pushErr "current_positions"
            "must be a non-empty array of { asset, amount, notional_usd } objects"]
        else
          (xs.enum.flatMap (fun p =>
            let idx := p.1
            if !p.2.truthy || !p.2.isObjectLike then
              [pushErr s!"current_positions[{idx}]" "must be an object"]
            else
              (if isNonEmptyString (p.2.get "asset") then []
               else [pushErr s!"current_positions[{idx}].asset" "must be a non-empty string"]) ++
              (if isPositiveNumber (p.2.get "amount") then []
               else [pushErr s!"current_positions[{idx}].amount" "must be a positive number"]) ++
              (if isPositiveNumber (p.2.get "notional_usd") then []
               else [pushErr s!"current_positions[{idx}].notional_usd" "must be a positive number"])))
    | _ => [pushErr "current_positions"
              "must be a non-empty array of { asset, amount, notional_usd } objects"]
  let e4 := if isNonEmptyString (req.get "risk_tolerance")
               && oneOf (req.get "risk_tolerance")
                 ["conservative", "moderate", "aggressive"] then []
            else [pushErr "risk_tolerance"
                    "must be one of conservative, moderate, aggressive"]
  let e5 := if isNonEmptyString (req.get "target_objective")
               && oneOf (req.get "target_objective")
                 ["maximize_yield", "preserve_capital", "balanced"] then []
            else [pushErr "target_objective"
                    "must be one of maximize_yield, preserve_capital, balanced"]
  let errors := e1 ++ e2 ++ e3 ++ e4 ++ e5
  ⟨errors.isEmpty, errors⟩

/-- `buildPortfolioRebalancerDeliverable(req, validation)`. -/
def buildPortfolioRebalancerDeliverable (req : JSValue)
    (validation : ValidationResult) (now : String) : Deliverable2 :=
  if !validation.ok then
    { job_name := "portfolio_rebalancer"
      validation_passed := false
      validation_errors := validation.errors
      recommended_trades := some []
      risk_summary := some (.obj
        [ ("total_notional_usd", .num 0),
          ("comment", .str "Validation failed. No rebalance recommendations generated.") ])
      resulting_allocations := some []
      summary := some (.obj
        [ ("overall_status", .str "invalid"),
          ("reason", .str "Input validation failed; portfolio was not analyzed.") ])
      methodology := some "Portfolio analysis was not performed due to missing or invalid current_positions or risk parameters."
      open_questions := some
        [ "Can you provide a complete, up-to-date snapshot of the portfolio, including all positions and cash?",
          "What drawdown or volatility limits define success for this portfolio?" ]
      timestamp_utc := now }
  else
    let positions := (req.get "current_positions").elems
    let total : JQ := positions.foldl
      (fun s p => jqAdd s (jsNumber (p.get "notional_usd"))) (jq 0)
    let stableSymbols := ["USDC", "USDT", "DAI"]
    let stableValue : JQ := (positions.filter
        (fun p => stableSymbols.contains (toUpperStr (jsToString (p.get "asset"))))).foldl
      (fun s p => jqAdd s (jsNumber (p.get "notional_usd"))) (jq 0)
    let trades : List JSValue :=
      if (match req.get "risk_tolerance" with
          | .str s => s = "aggressive"
          | _ => false) && jqGt total (jq 0) then
        if jqGt (jqDiv stableValue total) (jq (Rat.divInt 2 5)) then
          [ .obj
              [ ("action", .str "rotate_out_of_stables"),
                ("description", .str "Portfolio appears too stable-heavy for an aggressive profile. Suggest rotating a portion into higher-beta assets."),
                ("suggested_notional_to_rotate_usd",
                  jqVal (jqRound (jqMul stableValue (jq (Rat.divInt 3 10))))) ] ]
        else []
      else []
    { job_name := "portfolio_rebalancer"
      validation_passed := true
      validation_errors := []
      recommended_trades := some trades
      risk_summary := some (.obj
        [ ("total_notional_usd", jqVal total),
          ("comment", .str "Rebalance suggestions are heuristic only. Validate with your own risk framework before execution.") ])
      resulting_allocations := some (positions.map (fun p => .obj
        [ ("asset", p.get "asset"),
          ("notional_usd", p.get "notional_usd"),
          ("weight_pct",
            jqVal (jqMul (jqDiv (jsNumber (p.get "notional_usd")) total) (jq 100))) ]))
      summary := some (.obj
        [ ("chain", req.get "chain"),
          ("risk_tolerance", req.get "risk_tolerance"),
          ("target_objective", req.get "target_objective"),
          ("total_notional_usd", jqVal total),
          ("stable_value_usd", jqVal stableValue),
          ("stable_ratio",
            jqVal (if jqGt total (jq 0) then jqDiv stableValue total else jq 0)),
          ("recommended_trades_count", .num trades.length) ])
      methodology := some "Heuristic allocation review using current notional weights, risk tolerance and objective. It does not consider asset correlations, tax implications or protocol-specific risks."
      open_questions := some
        [ "Are there concentration limits per asset or protocol that should constrain rebalancing suggestions?",
          "Do you have liquidity constraints or on-chain slippage limits that must be respected when rotating out of stablecoins?",
          "Is there a required minimum cash or stable buffer for withdrawals or margin calls?" ]
      timestamp_utc := now }

/-- `buildDeliverableForJob(jobName, requirement)` of provider two. -/
def buildDeliverableForJob (now : String) (jobName : String)
    (requirement : JSValue) : Deliverable2 :=
  let reqD := if requirement.truthy then requirement else .obj []
  if jobName = "risk_sentinel" then
    buildRiskSentinelDeliverable reqD (validateRiskSentinel reqD) now
  else if jobName = "gas_execution_optimizer" then
    buildGasExecutionDeliverable reqD (validateGasExecution reqD) now
  else if jobName = "strategy_safety_audit" then
    buildStrategyAuditDeliverable reqD (validateStrategyAudit reqD) now
  else if jobName = "market_intelligence_feed" then
    buildMarketIntelDeliverable reqD (validateMarketIntel reqD) now
  else if jobName = "portfolio_rebalancer" then
    buildPortfolioRebalancerDeliverable reqD (validatePortfolioRebalancer reqD) now
  else
    { job_name := if jobName ≠ "" then jobName else "unknown"
      validation_passed := false
      validation_errors := ["Unknown or unsupported job_name."]
      error := some true
      message := some "The provider could not match this job to a known offering. Please ensure you're using one of the supported jobs for this agent."
      summary := some (.obj
        [ ("overall_status", .str "unsupported_job"),
          ("job_name", .str (if jobName ≠ "" then jobName else "unknown")) ])
      timestamp_utc := now }

end V2

/- ------------------------------------------------------------------ -/
/- Concrete inputs used by the claim theorems                          -/
/- ------------------------------------------------------------------ -/

/-- The end-to-end scenario requirement of the spec (section 8): notional
given as the comma-separated numeric string "10,000". -/
def c2req : JSValue := .obj
  [ ("client_agent_id", .str "x"), ("chain", .str "base"),
    ("asset_in", .str "USDC"), ("asset_out", .str "WETH"),
    ("side", .str "buy"), ("notional_value_usd", .str "10,000"),
    ("max_slippage_bps", .num 50), ("execution_venue", .str "unknown") ]

/-- The C2 deliverable: both resource fetches fail. -/
def c2deliverable (now : String) : Deliverable :=
  buildDeliverableForJob (.failure "unavailable") (.failure "unavailable") now
    "pre_trade_risk_pack" c2req

/-- A normalized pre-trade request with notional 200000 USD and a 50 bps
cap (validation passes; used to drive both the reduce and reject rules). -/
def c3reqW : PreTradeNorm :=
  ⟨.str "x", .str "base", .str "USDC", .str "WETH", "buy", some 200000,
   "unknown", some 50, "normal", some 1, none, .undefined⟩

/-- A depth result whose best venue estimates 200 bps of slippage. -/
def c3depthW : DepthFetch :=
  .success ⟨[⟨"aerodrome", some 1000000, some 200⟩],
    some ⟨"aerodrome", some 1000000, some 200⟩⟩

/-- A valid risk-sentinel requirement with a native-number notional. -/
def rsNum : JSValue := .obj
  [ ("client_agent_id", .str "x"), ("asset_pair", .str "USDC/WETH"),
    ("side", .str "buy"), ("notional_value_usd", .num 50000),
    ("execution_venue", .str "uniswap_v3"), ("chain", .str "base"),
    ("leverage", .num 1) ]

/-- The same risk-sentinel requirement with the notional as the numeric
string "50,000". -/
def rsStr : JSValue := .obj
  [ ("client_agent_id", .str "x"), ("asset_pair", .str "USDC/WETH"),
    ("side", .str "buy"), ("notional_value_usd", .str "50,000"),
    ("execution_venue", .str "uniswap_v3"), ("chain", .str "base"),
    ("leverage", .num 1) ]

/-- A valid pre-trade requirement with notional the string "50,000". -/
def c7reqStr : JSValue := .obj
  [ ("client_agent_id", .str "x"), ("chain", .str "base"),
    ("asset_in", .str "USDC"), ("asset_out", .str "WETH"),
    ("side", .str "buy"), ("notional_value_usd", .str "50,000"),
    ("max_slippage_bps", .num 50), ("execution_venue", .str "unknown") ]

/-- The same pre-trade requirement with notional the number 50000. -/
def c7reqNum : JSValue := .obj
  [ ("client_agent_id", .str "x"), ("chain", .str "base"),
    ("asset_in", .str "USDC"), ("asset_out", .str "WETH"),
    ("side", .str "buy"), ("notional_value_usd", .num 50000),
    ("max_slippage_bps", .num 50), ("execution_venue", .str "unknown") ]

/-- The same pre-trade requirement with a non-finite notional. -/
def c7reqNaN : JSValue := .obj
  [ ("client_agent_id", .str "x"), ("chain", .str "base"),
    ("asset_in", .str "USDC"), ("asset_out", .str "WETH"),
    ("side", .str "buy"), ("notional_value_usd", .nnum),
    ("max_slippage_bps", .num 50), ("execution_venue", .str "unknown") ]

/-- A normalized pre-trade request with notional 1000 USD (for the
monotonicity witness). -/
def c8reqW : PreTradeNorm :=
  ⟨.str "x", .str "base", .str "USDC", .str "WETH", "buy", some 1000,
   "unknown", some 50, "normal", some 1, none, .undefined⟩

/-- A pre-trade requirement whose integer-bounded fields are non-integer
numbers: `max_slippage_bps` 50.9 and `time_horizon_minutes` 5.5. -/
def c10req : JSValue := .obj
  [ ("client_agent_id", .str "x"), ("chain", .str "base"),
    ("asset_in", .str "USDC"), ("asset_out", .str "WETH"),
    ("side", .str "buy"), ("notional_value_usd", .num 10000),
    ("max_slippage_bps", .num (Rat.divInt 509 10)), ("execution_venue", .str "unknown"),
    ("time_horizon_minutes", .num (Rat.divInt 11 2)) ]

/-- An execution-quote requirement with `max_slippage_bps` 50.9 and
`deadline_seconds` 180.7. -/
def c10execReq : JSValue := .obj
  [ ("client_agent_id", .str "x"), ("chain", .str "base"),
    ("asset_in", .str "USDC"), ("asset_out", .str "WETH"),
    ("notional_value_usd", .num 10000),
    ("max_slippage_bps", .num (Rat.divInt 509 10)),
    ("deadline_seconds", .num (Rat.divInt 1807 10)) ]

/-- A market-intel requirement (provider one) with `lookback_minutes` 10.9. -/
def c10intelReq : JSValue := .obj
  [ ("client_agent_id", .str "x"), ("chain", .str "base"),
    ("lookback_minutes", .num (Rat.divInt 109 10)),
    ("minimum_notional_usd", .num 5000) ]
/-- Claim C1: `confidenceFromEvidence` returns "high" when both source
labels occur in the evidence list, "medium" when exactly one occurs, "low"
when neither occurs; and the result depends only on the set of source
labels — any two evidence lists with the same sources (regardless of
freshness/error payloads and duplicates) get the same confidence. -/
theorem confidenceFromEvidence_cases_and_set_invariant :
    (∀ ev : List Evidence,
      (("resources/base-gas-profile" ∈ ev.map Evidence.source ∧
        "resources/base-venue-depth" ∈ ev.map Evidence.source) →
          confidenceFromEvidence ev = "high") ∧
      (("resources/base-gas-profile" ∈ ev.map Evidence.source ↔
        ¬ "resources/base-venue-depth" ∈ ev.map Evidence.source) →
          confidenceFromEvidence ev = "medium") ∧
      ((¬ "resources/base-gas-profile" ∈ ev.map Evidence.source ∧
        ¬ "resources/base-venue-depth" ∈ ev.map Evidence.source) →
          confidenceFromEvidence ev = "low")) ∧
    (∀ ev₁ ev₂ : List Evidence,
      (∀ s : String, s ∈ ev₁.map Evidence.source ↔ s ∈ ev₂.map Evidence.source) →
      confidenceFromEvidence ev₁ = confidenceFromEvidence ev₂) := by
  constructor
  · intro ev
    refine ⟨?_, ?_, ?_⟩
    · rintro ⟨hg, hd⟩
      simp only [confidenceFromEvidence, List.contains, List.elem_iff]
      rw [if_pos (by simp [hg, hd])]
    · intro hiff
      simp only [confidenceFromEvidence, List.contains, List.elem_iff]
      by_cases hg : "resources/base-gas-profile" ∈ ev.map Evidence.source
      · have hd := hiff.mp hg
        rw [if_neg (by simp [hd]), if_pos (by simp [hg])]
      · have hd : "resources/base-venue-depth" ∈ ev.map Evidence.source := by
          by_contra hnd; exact hg (hiff.mpr hnd)
        rw [if_neg (by simp [hg]), if_pos (by simp [hd])]
    · rintro ⟨hg, hd⟩
      simp only [confidenceFromEvidence, List.contains, List.elem_iff]
      rw [if_neg (by simp [hg]), if_neg (by simp [hg, hd])]
  · intro ev₁ ev₂ h
    simp only [confidenceFromEvidence, List.contains]
    have e1 : List.elem "resources/base-gas-profile" (ev₁.map (fun x => x.source))
        = List.elem "resources/base-gas-profile" (ev₂.map (fun x => x.source)) := by
      rw [Bool.eq_iff_iff]
      simpa using h "resources/base-gas-profile"
    have e2 : List.elem "resources/base-venue-depth" (ev₁.map (fun x => x.source))
        = List.elem "resources/base-venue-depth" (ev₂.map (fun x => x.source)) := by
      rw [Bool.eq_iff_iff]
      simpa using h "resources/base-venue-depth"
    simp only [e1, e2]

/-- Witness for C1: a successful-gas entry plus a failed-depth entry yields
"high"; a duplicate-failure list over one source yields "medium"; the empty
list yields "low"; and a success-only list agrees with a failure-only list
over the same sources. -/
theorem confidenceFromEvidence_cases_witness :
    confidenceFromEvidence
      [⟨"resources/base-gas-profile", some 60, none⟩,
       ⟨"resources/base-venue-depth", none, some "unavailable"⟩] = "high" ∧
    confidenceFromEvidence
      [⟨"resources/base-gas-profile", none, some "x"⟩,
       ⟨"resources/base-gas-profile", some 60, none⟩] = "medium" ∧
    confidenceFromEvidence [] = "low" ∧
    confidenceFromEvidence [⟨"resources/base-venue-depth", some 60, none⟩] =
      confidenceFromEvidence [⟨"resources/base-venue-depth", none, some "err"⟩] := by
  refine ⟨?_, ?_, ?_, ?_⟩
  · exact (confidenceFromEvidence_cases_and_set_invariant.1 _).1 (by simp)
  · exact (confidenceFromEvidence_cases_and_set_invariant.1 _).2.1 (by simp)
  · exact (confidenceFromEvidence_cases_and_set_invariant.1 _).2.2 (by simp)
  · exact confidenceFromEvidence_cases_and_set_invariant.2 _ _ (by simp)

/- ------------------------------------------------------------------ -/
/- Helper lemmas: the kernel-computable arithmetic agrees with ℚ       -/
/- ------------------------------------------------------------------ -/

/-- `(q.num : ℚ) = q * q.den`. -/
theorem num_eq_mul_den (a : ℚ) : (a.num : ℚ) = a * (a.den : ℚ) := by
  have ha : (a.den : ℚ) ≠ 0 := by exact_mod_cast a.den_nz
  rw [← div_eq_iff ha]
  exact Rat.num_div_den a

theorem qAdd_eq (a b : ℚ) : qAdd a b = a + b := by
  have ha : (a.den : ℚ) ≠ 0 := by exact_mod_cast a.den_nz
  have hb : (b.den : ℚ) ≠ 0 := by exact_mod_cast b.den_nz
  rw [qAdd, Rat.divInt_eq_div]
  push_cast
  rw [div_eq_iff (mul_ne_zero ha hb), num_eq_mul_den a, num_eq_mul_den b]
  ring

theorem qSub_eq (a b : ℚ) : qSub a b = a - b := by
  have ha : (a.den : ℚ) ≠ 0 := by exact_mod_cast a.den_nz
  have hb : (b.den : ℚ) ≠ 0 := by exact_mod_cast b.den_nz
  rw [qSub, Rat.divInt_eq_div]
  push_cast
  rw [div_eq_iff (mul_ne_zero ha hb), num_eq_mul_den a, num_eq_mul_den b]
  ring

theorem qMul_eq (a b : ℚ) : qMul a b = a * b := by
  have ha : (a.den : ℚ) ≠ 0 := by exact_mod_cast a.den_nz
  have hb : (b.den : ℚ) ≠ 0 := by exact_mod_cast b.den_nz
  rw [qMul, Rat.divInt_eq_div]
  push_cast
  rw [div_eq_iff (mul_ne_zero ha hb), num_eq_mul_den a, num_eq_mul_den b]
  ring

theorem qDiv_eq (a b : ℚ) : qDiv a b = a / b := by
  rcases eq_or_ne b 0 with hb | hb
  · subst hb
    simp [qDiv, Rat.divInt_eq_div]
  · have ha : (a.den : ℚ) ≠ 0 := by exact_mod_cast a.den_nz
    have hbn : (b.num : ℚ) ≠ 0 := by
      exact_mod_cast Rat.num_ne_zero.mpr hb
    have hbd : (b.den : ℚ) ≠ 0 := by exact_mod_cast b.den_nz
    rw [qDiv, Rat.divInt_eq_div]
    push_cast
    rw [div_eq_div_iff (mul_ne_zero ha hbn) hb, num_eq_mul_den a, num_eq_mul_den b]
    ring

theorem qMin_eq (a b : ℚ) : qMin a b = min a b := (min_def a b).symm

theorem qMax_eq (a b : ℚ) : qMax a b = max a b := (max_def a b).symm

/-- `clamp` is the usual `max a (min b n)`. -/
theorem clamp_eq (n a b : ℚ) : clamp n a b = max a (min b n) := by
  rw [clamp, qMax_eq, qMin_eq]

/-- `clamp` with fixed bounds is monotone. -/
theorem clamp_mono {x y : ℚ} (a b : ℚ) (h : x ≤ y) : clamp x a b ≤ clamp y a b := by
  rw [clamp_eq, clamp_eq]
  exact max_le_max le_rfl (min_le_min le_rfl h)

/-- `Math.round` is monotone. -/
theorem jround_mono {x y : ℚ} (h : x ≤ y) : jround x ≤ jround y := by
  rw [jround, jround, qAdd_eq, qAdd_eq]
  exact Int.floor_le_floor (by linarith [ (Rat.divInt_eq_div 1 2) ] )

/-- Claim C2 counterexample: in the spec's end-to-end scenario (requirement
`c2req`, both resource fetches failing) the deliverable's confidence level
is "high", not "low" as claimed — a failed fetch still records its source
label, and `confidenceFromEvidence` counts labels regardless of
success/failure. (The fallback slippage estimate is also 16 bps, not 15:
the 15-bps floor of the clamp does not bind.) -/
theorem c2_confidence_counterexample :
    (c2deliverable "").confidence_level = some "high" ∧
    (c2deliverable "").confidence_level ≠ some "low" ∧
    ((c2deliverable "").liquidity_analysis.map
      (fun l => l.estimated_slippage_bps_at_size)) = some (some 16) ∧
    ((c2deliverable "").liquidity_analysis.map
      (fun l => l.estimated_slippage_bps_at_size)) ≠ some (some 15) := by
  refine ⟨by decide, by decide, by decide, by decide⟩

/-- Claim C2 as amended: for the requirement {client_agent_id:"x",
chain:"base", asset_in:"USDC", asset_out:"WETH", side:"buy",
notional_value_usd:"10,000", max_slippage_bps:50, execution_venue:"unknown"}
with both resources unavailable, the deliverable has
validation_passed = true, confidence_level = "high" (both failed fetches
still carry their source labels), the slippage estimate is the fallback
clamp(round((10000/50000)·80), 15, 180) = 16 bps, which does not exceed the
50 bps cap, so the decision is "APPROVE" with size factor 1, and the risk
score from the fallback bands is 3 + 6 + 6 + 0 = 15. -/
theorem c2_both_fetches_fail_amended (now : String) :
    (c2deliverable now).validation_passed = true ∧
    (c2deliverable now).confidence_level = some "high" ∧
    ((c2deliverable now).liquidity_analysis.map
      (fun l => l.estimated_slippage_bps_at_size)) = some (some 16) ∧
    jqGt (some 16) (jqOfInt (some 50)) = false ∧
    (c2deliverable now).decision = some "APPROVE" ∧
    (c2deliverable now).risk_score = some (some 15) ∧
    (c2deliverable now).recommended_size_factor = some (some 1) ∧
    (c2deliverable now).evidence = some
      [⟨"resources/base-gas-profile", none, some "unavailable"⟩,
       ⟨"resources/base-venue-depth", none, some "unavailable"⟩] :=
  ⟨rfl, rfl, rfl, by decide, rfl, rfl, rfl, rfl⟩

/-- The decision ladder yields REJECT with size factor 0 whenever the risk
score reaches 80, regardless of the earlier SIZE_DOWN branch. -/
theorem preTradeDecision_of_ge80 (est : JQ) (cap : Option ℤ) (score : JQ)
    (h : jqGe score (jq 80) = true) :
    preTradeDecision est cap score = ("REJECT", jq 0) := by
  rw [preTradeDecision]
  simp [h]

/-- Claim C3: for every pre-trade request that passed validation, whenever
the estimated slippage exceeds the caller's cap (the SIZE_DOWN trigger)
and the risk score is at least 80 (the REJECT trigger), the deliverable's
decision is "REJECT" and its recommended size factor is 0 — the reject
rule is evaluated after the reduce rule and overrides it. -/
theorem preTrade_reject_overrides_size_down
    (req : PreTradeNorm) (validation : ValidationResult) (gasF : GasFetch)
    (depthF : DepthFetch) (now : String)
    (hok : validation.ok = true)
    (hslip : jqGt (estSlipBpsOr req.notional_value_usd (bestOf depthF))
      (jqOfInt req.max_slippage_bps) = true)
    (hscore : jqGe (preTradeRiskScore req.notional_value_usd
      (estSlipBpsOr req.notional_value_usd (bestOf depthF))
      (congestionOf gasF) req.leverage) (jq 80) = true) :
    (buildPreTradeRiskPackDeliverable req validation gasF depthF now).decision
      = some "REJECT" ∧
    (buildPreTradeRiskPackDeliverable req validation gasF
      depthF now).recommended_size_factor = some (some 0) := by
  have hd := preTradeDecision_of_ge80
    (estSlipBpsOr req.notional_value_usd (bestOf depthF)) req.max_slippage_bps
    (preTradeRiskScore req.notional_value_usd
      (estSlipBpsOr req.notional_value_usd (bestOf depthF))
      (congestionOf gasF) req.leverage) hscore
  have h0 : toFixed2 0 = 0 := by decide
  have hdec : (buildPreTradeRiskPackDeliverable req validation gasF depthF now).decision
      = some (preTradeDecision (estSlipBpsOr req.notional_value_usd (bestOf depthF))
          req.max_slippage_bps
          (preTradeRiskScore req.notional_value_usd
            (estSlipBpsOr req.notional_value_usd (bestOf depthF))
            (congestionOf gasF) req.leverage)).1 := by
    unfold buildPreTradeRiskPackDeliverable
    rw [hok]
    rfl
  have hsf : (buildPreTradeRiskPackDeliverable req validation gasF
        depthF now).recommended_size_factor
      = some ((preTradeDecision (estSlipBpsOr req.notional_value_usd (bestOf depthF))
          req.max_slippage_bps
          (preTradeRiskScore req.notional_value_usd
            (estSlipBpsOr req.notional_value_usd (bestOf depthF))
            (congestionOf gasF) req.leverage)).2.map toFixed2) := by
    unfold buildPreTradeRiskPackDeliverable
    rw [hok]
    rfl
  refine ⟨?_, ?_⟩
  · rw [hdec, hd]
  · rw [hsf, hd]
    simp [jq, h0]

/-- Witness for C3: a 200000 USD notional with a 50 bps cap against a venue
whose estimated slippage is 200 bps trips both rules and is rejected. -/
theorem preTrade_reject_overrides_size_down_witness :
    jqGt (estSlipBpsOr c3reqW.notional_value_usd (bestOf c3depthW))
      (jqOfInt c3reqW.max_slippage_bps) = true ∧
    jqGe (preTradeRiskScore c3reqW.notional_value_usd
      (estSlipBpsOr c3reqW.notional_value_usd (bestOf c3depthW))
      (congestionOf (.failure "e")) c3reqW.leverage) (jq 80) = true ∧
    ((buildPreTradeRiskPackDeliverable c3reqW ⟨true, []⟩ (.failure "e") c3depthW
        "T").decision = some "REJECT" ∧
     (buildPreTradeRiskPackDeliverable c3reqW ⟨true, []⟩ (.failure "e") c3depthW
        "T").recommended_size_factor = some (some 0)) :=
  ⟨by decide, by decide,
   preTrade_reject_overrides_size_down c3reqW ⟨true, []⟩ (.failure "e") c3depthW "T"
     rfl (by decide) (by decide)⟩

/-- Claim C4 counterexample: provider two's gas_execution_optimizer on the
empty requirement produces a deliverable with validation_passed = false
whose object carries no `decision` key and no `risk_score` key at all —
so the claimed invariant "validation_passed=false implies decision is a
rejecting value and risk score 0" fails for this builder. -/
theorem invalid_deliverable_counterexample :
    (V2.buildDeliverableForJob "T" "gas_execution_optimizer" (.obj [])).validation_passed
      = false ∧
    (V2.buildDeliverableForJob "T" "gas_execution_optimizer" (.obj [])).decision = none ∧
    (V2.buildDeliverableForJob "T" "gas_execution_optimizer" (.obj [])).risk_score = none :=
  ⟨rfl, rfl, rfl⟩

/-- Claim C4 as amended: the invariant "validation_passed=false implies a
rejecting decision and risk score 0" holds for provider one's three job
builders (whose invalid paths all return `invalidDeliverable`, with
decision "REJECT", risk score 0 and size factor 0) and for provider two's
risk_sentinel (decision "reject", risk score 0, size factor 0); the
remaining provider-two builders (gas_execution_optimizer,
strategy_safety_audit, market_intelligence_feed, portfolio_rebalancer) and
both dispatchers' unknown-job deliverables set validation_passed = false
but carry no decision and no risk-score field at all. -/
theorem invalid_deliverable_rejects_amended :
    (∀ (jn : String) (v : ValidationResult) (now : String),
      (invalidDeliverable jn v now).validation_passed = false ∧
      (invalidDeliverable jn v now).decision = some "REJECT" ∧
      (invalidDeliverable jn v now).risk_score = some (some 0) ∧
      (invalidDeliverable jn v now).recommended_size_factor = some (some 0)) ∧
    (∀ (req : PreTradeNorm) (v : ValidationResult) (gasF : GasFetch)
       (depthF : DepthFetch) (now : String), v.ok = false →
      buildPreTradeRiskPackDeliverable req v gasF depthF now
        = invalidDeliverable "pre_trade_risk_pack" v now) ∧
    (∀ (req : ExecQuoteNorm) (v : ValidationResult) (depthF : DepthFetch)
       (now : String), v.ok = false →
      buildExecutionQuoteAndRouteDeliverable req v depthF now
        = invalidDeliverable "execution_quote_and_route" v now) ∧
    (∀ (req : MarketIntelNorm) (v : ValidationResult) (gasF : GasFetch)
       (now : String), v.ok = false →
      buildMarketIntelDeliverable req v gasF now
        = invalidDeliverable "market_intelligence_feed" v now) ∧
    (∀ (req : JSValue) (v : ValidationResult) (now : String), v.ok = false →
      (V2.buildRiskSentinelDeliverable req v now).validation_passed = false ∧
      (V2.buildRiskSentinelDeliverable req v now).decision = some "reject" ∧
      (V2.buildRiskSentinelDeliverable req v now).risk_score = some (some 0) ∧
      (V2.buildRiskSentinelDeliverable req v now).recommended_size_factor
        = some (some 0)) ∧
    (∀ (req : JSValue) (v : ValidationResult) (now : String), v.ok = false →
      (V2.buildGasExecutionDeliverable req v now).validation_passed = false ∧
      (V2.buildGasExecutionDeliverable req v now).decision = none ∧
      (V2.buildGasExecutionDeliverable req v now).risk_score = none) ∧
    (∀ (req : JSValue) (v : ValidationResult) (now : String), v.ok = false →
      (V2.buildStrategyAuditDeliverable req v now).validation_passed = false ∧
      (V2.buildStrategyAuditDeliverable req v now).decision = none ∧
      (V2.buildStrategyAuditDeliverable req v now).risk_score = none) ∧
    (∀ (req : JSValue) (v : ValidationResult) (now : String), v.ok = false →
      (V2.buildMarketIntelDeliverable req v now).validation_passed = false ∧
      (V2.buildMarketIntelDeliverable req v now).decision = none ∧
      (V2.buildMarketIntelDeliverable req v now).risk_score = none) ∧
    (∀ (req : JSValue) (v : ValidationResult) (now : String), v.ok = false →
      (V2.buildPortfolioRebalancerDeliverable req v now).validation_passed = false ∧
      (V2.buildPortfolioRebalancerDeliverable req v now).decision = none ∧
      (V2.buildPortfolioRebalancerDeliverable req v now).risk_score = none) ∧
    (∀ (gasF : GasFetch) (depthF : DepthFetch) (now jobName : String)
       (req : JSValue),
      jobName ≠ "pre_trade_risk_pack" → jobName ≠ "execution_quote_and_route" →
      jobName ≠ "market_intelligence_feed" →
      (buildDeliverableForJob gasF depthF now jobName req).validation_passed = false ∧
      (buildDeliverableForJob gasF depthF now jobName req).decision = none ∧
      (buildDeliverableForJob gasF depthF now jobName req).risk_score = none) ∧
    (∀ (now jobName : String) (req : JSValue),
      jobName ≠ "risk_sentinel" → jobName ≠ "gas_execution_optimizer" →
      jobName ≠ "strategy_safety_audit" → jobName ≠ "market_intelligence_feed" →
      jobName ≠ "portfolio_rebalancer" →
      (V2.buildDeliverableForJob now jobName req).validation_passed = false ∧
      (V2.buildDeliverableForJob now jobName req).decision = none ∧
      (V2.buildDeliverableForJob now jobName req).risk_score = none) := by
  refine ⟨fun jn v now => ⟨rfl, rfl, rfl, rfl⟩, ?_, ?_, ?_, ?_, ?_, ?_, ?_, ?_, ?_, ?_⟩
  · intro req v gasF depthF now h
    unfold buildPreTradeRiskPackDeliverable
    rw [h]
    rfl
  · intro req v depthF now h
    unfold buildExecutionQuoteAndRouteDeliverable
    rw [h]
    rfl
  · intro req v gasF now h
    unfold buildMarketIntelDeliverable
    rw [h]
    rfl
  · intro req v now h
    unfold V2.buildRiskSentinelDeliverable
    rw [h]
    exact ⟨rfl, rfl, rfl, rfl⟩
  · intro req v now h
    unfold V2.buildGasExecutionDeliverable
    rw [h]
    exact ⟨rfl, rfl, rfl⟩
  · intro req v now h
    unfold V2.buildStrategyAuditDeliverable
    rw [h]
    exact ⟨rfl, rfl, rfl⟩
  · intro req v now h
    unfold V2.buildMarketIntelDeliverable
    rw [h]
    exact ⟨rfl, rfl, rfl⟩
  · intro req v now h
    unfold V2.buildPortfolioRebalancerDeliverable
    rw [h]
    exact ⟨rfl, rfl, rfl⟩
  · intro gasF depthF now jobName req h1 h2 h3
    unfold buildDeliverableForJob
    rw [if_neg h1, if_neg h2, if_neg h3]
    exact ⟨rfl, rfl, rfl⟩
  · intro now jobName req h1 h2 h3 h4 h5
    unfold V2.buildDeliverableForJob
    rw [if_neg h1, if_neg h2, if_neg h3, if_neg h4, if_neg h5]
    exact ⟨rfl, rfl, rfl⟩

/-- Witness for C4 (amended): concrete instances — an invalid pre-trade
deliverable rejects with score 0; provider two's gas optimizer on the
empty requirement fails validation yet has no decision/risk-score keys;
and so does provider one's dispatcher on an unknown job name. -/
theorem invalid_deliverable_rejects_witness :
    ((invalidDeliverable "pre_trade_risk_pack" ⟨false, ["e"]⟩ "T").decision
      = some "REJECT" ∧
     (invalidDeliverable "pre_trade_risk_pack" ⟨false, ["e"]⟩ "T").risk_score
      = some (some 0)) ∧
    ((V2.validateGasExecution (.obj [])).ok = false) ∧
    ((V2.buildGasExecutionDeliverable (.obj []) (V2.validateGasExecution (.obj []))
        "T").decision = none) ∧
    ((buildDeliverableForJob (.failure "e") (.failure "e") "T" "unknown"
        (.obj [])).decision = none) :=
  ⟨⟨(invalid_deliverable_rejects_amended.1 "pre_trade_risk_pack" ⟨false, ["e"]⟩ "T").2.1,
    (invalid_deliverable_rejects_amended.1 "pre_trade_risk_pack" ⟨false, ["e"]⟩ "T").2.2.1⟩,
   by decide,
   (invalid_deliverable_rejects_amended.2.2.2.2.2.1 (.obj [])
     (V2.validateGasExecution (.obj [])) "T" (by decide)).2.1,
   (invalid_deliverable_rejects_amended.2.2.2.2.2.2.2.2.2.1 (.failure "e")
     (.failure "e") "T" "unknown" (.obj []) (by decide) (by decide) (by decide)).2.1⟩

/-- Claim C5: delivering a job whose id was never cached reads the empty
default from the job cache, the job kind defaults to "unknown", and the
pipeline returns the fixed unsupported-job deliverable with error = true,
validation_passed = false and the fixed message — for every cache, fetch
outcome and job id, without any exceptional path. -/
theorem deliver_uncached_job_unknown
    (cache : List (String × CachedJob)) (gasF : GasFetch) (depthF : DepthFetch)
    (now jobId : String) (h : jobCacheGet cache jobId = none) :
    deliverPhase cache gasF depthF now jobId
      = buildDeliverableForJob gasF depthF now "unknown" (.obj []) ∧
    (deliverPhase cache gasF depthF now jobId).job_name = "unknown" ∧
    (deliverPhase cache gasF depthF now jobId).validation_passed = false ∧
    (deliverPhase cache gasF depthF now jobId).error = some true ∧
    (deliverPhase cache gasF depthF now jobId).validation_errors
      = ["Unknown or unsupported job_name."] ∧
    (deliverPhase cache gasF depthF now jobId).message
      = some "Unsupported job. Use: pre_trade_risk_pack, execution_quote_and_route, market_intelligence_feed" := by
  have he : deliverPhase cache gasF depthF now jobId
      = buildDeliverableForJob gasF depthF now "unknown" (.obj []) := by
    unfold deliverPhase
    rw [h]
  refine ⟨he, ?_, ?_, ?_, ?_, ?_⟩ <;> rw [he] <;> rfl

/-- Witness for C5: the empty cache caches nothing, and delivery for
"job-1" degrades to the unsupported-job deliverable. -/
theorem deliver_uncached_job_unknown_witness :
    jobCacheGet [] "job-1" = none ∧
    (deliverPhase [] (.failure "e") (.failure "e") "T" "job-1").job_name
      = "unknown" ∧
    (deliverPhase [] (.failure "e") (.failure "e") "T" "job-1").error = some true :=
  ⟨rfl,
   (deliver_uncached_job_unknown [] (.failure "e") (.failure "e") "T" "job-1" rfl).2.1,
   (deliver_uncached_job_unknown [] (.failure "e") (.failure "e") "T" "job-1" rfl).2.2.2.1⟩

/-- A validator result built as `⟨errors.isEmpty, errors⟩` satisfies
`ok = true ↔ errors = []`. -/
theorem ok_iff_of_isEmpty {r : ValidationResult}
    (h : r.ok = r.errors.isEmpty) : r.ok = true ↔ r.errors = [] := by
  rw [h]
  exact List.isEmpty_iff

/-- Claim C6: every validator of both providers is a total function whose
`ok` flag is true exactly when the error list is empty; on the empty
requirement mapping each returns `ok = false` with the complete list of
all field violations accumulated in source order (more than one error, so
validation did not stop at the first failure). -/
theorem validators_total_and_accumulate :
    (∀ req : JSValue, (validatePreTradeRiskPack req).1.ok = true
        ↔ (validatePreTradeRiskPack req).1.errors = []) ∧
    (∀ req : JSValue, (validateExecutionQuoteAndRoute req).1.ok = true
        ↔ (validateExecutionQuoteAndRoute req).1.errors = []) ∧
    (∀ req : JSValue, (validateMarketIntel req).1.ok = true
        ↔ (validateMarketIntel req).1.errors = []) ∧
    (∀ req : JSValue, (V2.validateRiskSentinel req).ok = true
        ↔ (V2.validateRiskSentinel req).errors = []) ∧
    (∀ req : JSValue, (V2.validateGasExecution req).ok = true
        ↔ (V2.validateGasExecution req).errors = []) ∧
    (∀ req : JSValue, (V2.validateStrategyAudit req).ok = true
        ↔ (V2.validateStrategyAudit req).errors = []) ∧
    (∀ req : JSValue, (V2.validateMarketIntel req).ok = true
        ↔ (V2.validateMarketIntel req).errors = []) ∧
    (∀ req : JSValue, (V2.validatePortfolioRebalancer req).ok = true
        ↔ (V2.validatePortfolioRebalancer req).errors = []) ∧
    (validatePreTradeRiskPack (.obj [])).1 = ⟨false,
      ["client_agent_id: must be a non-empty string",
       "chain: must be a non-empty string",
       "asset_in: must be token symbol or address",
       "asset_out: must be token symbol or address",
       "side: must be 'buy' or 'sell'",
       "notional_value_usd: must be a positive number (numeric string allowed)",
       "max_slippage_bps: must be integer 1..2000 (e.g., 50 = 0.50%)"]⟩ ∧
    (validateExecutionQuoteAndRoute (.obj [])).1 = ⟨false,
      ["client_agent_id: must be a non-empty string",
       "chain: must be a non-empty string",
       "asset_in: must be token symbol or address",
       "asset_out: must be token symbol or address",
       "notional_value_usd: must be a positive number (numeric string allowed)",
       "max_slippage_bps: must be integer 1..2000"]⟩ ∧
    (validateMarketIntel (.obj [])).1 = ⟨false,
      ["client_agent_id: must be a non-empty string",
       "chain: must be a non-empty string",
       "lookback_minutes: must be integer 5..43200",
       "minimum_notional_usd: must be a positive number (numeric string allowed)"]⟩ ∧
    V2.validateRiskSentinel (.obj []) = ⟨false,
      ["client_agent_id: must be a non-empty string",
       "asset_pair: must be a non-empty string like 'USDC/WETH'",
       "side: must be one of 'buy', 'sell', 'long', 'short'",
       "notional_value_usd: must be a positive number in USD",
       "execution_venue: must be a non-empty string (e.g. 'uniswap_v3')",
       "chain: must be one of: base, ethereum-mainnet, arbitrum, optimism, polygon",
       "leverage: must be >= 1 (use 1 for spot/no leverage)"]⟩ ∧
    V2.validateGasExecution (.obj []) = ⟨false,
      ["client_agent_id: must be a non-empty string",
       "chain: must be a non-empty string",
       "transaction_type: must be one of swap, liquidity_add, rebalance, leverage_open",
       "urgency: must be one of low, normal, high",
       "expected_notional_usd: must be a positive number",
       "current_gas_price_wei: must be a non-negative number (0 allowed for unknown)"]⟩ ∧
    V2.validateStrategyAudit (.obj []) = ⟨false,
      ["client_agent_id: must be a non-empty string",
       "strategy_name: must be a non-empty string",
       "chain: must be a non-empty string",
       "strategy_description: must be a non-empty description of the strategy",
       "contracts_involved: must be a non-empty array of contract addresses or identifiers",
       "max_leverage: must be >= 1",
       "target_yield_apy: must be a non-negative number (percent APY)"]⟩ ∧
    V2.validateMarketIntel (.obj []) = ⟨false,
      ["client_agent_id: must be a non-empty string",
       "chain: must be a non-empty string",
       "lookback_minutes: must be a positive number",
       "minimum_notional_usd: must be a positive number"]⟩ ∧
    V2.validatePortfolioRebalancer (.obj []) = ⟨false,
      ["client_agent_id: must be a non-empty string",
       "chain: must be a non-empty string",
       "current_positions: must be a non-empty array of { asset, amount, notional_usd } objects",
       "risk_tolerance: must be one of conservative, moderate, aggressive",
       "target_objective: must be one of maximize_yield, preserve_capital, balanced"]⟩ :=
  ⟨fun req => ok_iff_of_isEmpty rfl,
   fun req => ok_iff_of_isEmpty rfl,
   fun req => ok_iff_of_isEmpty rfl,
   fun req => ok_iff_of_isEmpty rfl,
   fun req => ok_iff_of_isEmpty rfl,
   fun req => ok_iff_of_isEmpty rfl,
   fun req => ok_iff_of_isEmpty rfl,
   fun req => ok_iff_of_isEmpty rfl,
   by decide, by decide, by decide, by decide, by decide, by decide, by decide,
   by decide⟩

/-- Claim C7 counterexample: provider two's validators accept only native
numbers — the numeric string "50,000" (which provider one's `toNumber`
reads as 50000) is rejected by `validateRiskSentinel` with a field error,
so comma-separated numeric strings are NOT accepted by every numeric field
of both provider variants. -/
theorem numeric_string_not_universal_counterexample :
    toNumber (.str "50,000") = some 50000 ∧
    (V2.validateRiskSentinel rsNum).ok = true ∧
    (V2.validateRiskSentinel rsStr).ok = false ∧
    (V2.validateRiskSentinel rsStr).errors
      = ["notional_value_usd: must be a positive number in USD"] :=
  ⟨by decide, by decide, by decide, by decide⟩

/-- Claim C7 as amended: in provider one, a numeric string with thousands
separators is accepted and normalizes to the same value as the plain
native number (the requirement with "50,000" validates identically to the
one with 50000 and stores the same 50000), and a non-finite value is
rejected with a field error; provider two's numeric predicates accept only
native finite numbers — every string, numeric or not, is rejected. -/
theorem numeric_fields_amended :
    (∀ q : ℚ, toNumber (.num q) = some q) ∧
    toNumber (.str "50,000") = some 50000 ∧
    (validatePreTradeRiskPack c7reqStr).1 = (validatePreTradeRiskPack c7reqNum).1 ∧
    (validatePreTradeRiskPack c7reqStr).2.notional_value_usd = some 50000 ∧
    (validatePreTradeRiskPack c7reqNum).2.notional_value_usd = some 50000 ∧
    (validatePreTradeRiskPack c7reqStr).1.ok = true ∧
    toNumber .nnum = none ∧
    (validatePreTradeRiskPack c7reqNaN).1.ok = false ∧
    "notional_value_usd: must be a positive number (numeric string allowed)"
      ∈ (validatePreTradeRiskPack c7reqNaN).1.errors ∧
    V2.isPositiveNumber .nnum = false ∧
    (∀ s : String, V2.isPositiveNumber (.str s) = false) ∧
    (V2.validateRiskSentinel rsStr).ok = false :=
  ⟨fun q => rfl, by decide, by decide, by decide, by decide, by decide, rfl,
   by decide, by decide, rfl, fun s => rfl, by decide⟩

/-- `sizeScore` on a finite notional, as a closed rational expression. -/
theorem preTradeSizeScore_some (n : ℚ) :
    preTradeSizeScore (some n)
      = some (clamp ((jround (qMul (qDiv n 100000) 25) : ℤ) : ℚ) 0 35) := by
  unfold preTradeSizeScore
  simp only [jq, jqDiv, jqMul, jqRound, jqClamp, Option.map]
  rw [if_neg (by norm_num : ¬((100000 : ℚ) = 0))]

/-- `slipScore` on a finite estimate, as a closed rational expression. -/
theorem preTradeSlipScore_some (est : ℚ) :
    preTradeSlipScore (some est)
      = some (clamp ((jround (qMul (qDiv est 100) 40) : ℤ) : ℚ) 5 45) := by
  unfold preTradeSlipScore
  simp only [jq, jqDiv, jqMul, jqRound, jqClamp, Option.map]
  rw [if_neg (by norm_num : ¬((100 : ℚ) = 0))]

/-- `levScore` on a finite leverage, as a closed rational expression. -/
theorem preTradeLevScore_some (lev : ℚ) :
    preTradeLevScore (some lev)
      = some (if 1 < lev then
          clamp ((jround (qMul (qSub lev 1) 20) : ℤ) : ℚ) 0 30 else 0) := by
  unfold preTradeLevScore
  by_cases hl : 1 < lev
  · rw [if_pos (by simpa [jqGt, jq] using hl), if_pos hl]
    simp only [jq, jqSub, jqMul, jqRound, jqClamp, Option.map]
  · rw [if_neg (by simpa [jqGt, jq] using hl), if_neg hl]
    rfl

/-- `riskScore` on finite inputs, as a closed rational expression. -/
theorem preTradeRiskScore_some (n est lev : ℚ) (cong : String) :
    preTradeRiskScore (some n) (some est) cong (some lev)
      = some (clamp (qAdd (qAdd (qAdd
          (clamp ((jround (qMul (qDiv n 100000) 25) : ℤ) : ℚ) 0 35)
          (clamp ((jround (qMul (qDiv est 100) 40) : ℤ) : ℚ) 5 45))
          (preTradeGasScore cong))
          (if 1 < lev then
            clamp ((jround (qMul (qSub lev 1) 20) : ℤ) : ℚ) 0 30 else 0)) 0 100) := by
  unfold preTradeRiskScore
  rw [preTradeSizeScore_some, preTradeSlipScore_some, preTradeLevScore_some]
  simp only [jq, jqAdd, jqClamp, Option.map]

/-- Claim C8: for a validated pre-trade request the deliverable's risk
score is `preTradeRiskScore` of (notional, estimate, congestion,
leverage); and that score, for fixed finite estimate, congestion and
leverage, is monotone non-decreasing in the notional. -/
theorem preTrade_riskScore_monotone_in_notional :
    (∀ (req : PreTradeNorm) (v : ValidationResult) (gasF : GasFetch)
       (depthF : DepthFetch) (now : String), v.ok = true →
      (buildPreTradeRiskPackDeliverable req v gasF depthF now).risk_score
        = some (preTradeRiskScore req.notional_value_usd
            (estSlipBpsOr req.notional_value_usd (bestOf depthF))
            (congestionOf gasF) req.leverage)) ∧
    (∀ (n₁ n₂ est lev : ℚ) (cong : String), n₁ ≤ n₂ →
      ∀ s₁ s₂ : ℚ,
        preTradeRiskScore (some n₁) (some est) cong (some lev) = some s₁ →
        preTradeRiskScore (some n₂) (some est) cong (some lev) = some s₂ →
        s₁ ≤ s₂) := by
  constructor
  · intro req v gasF depthF now hok
    unfold buildPreTradeRiskPackDeliverable
    rw [hok]
    rfl
  · intro n₁ n₂ est lev cong h s₁ s₂ h₁ h₂
    rw [preTradeRiskScore_some] at h₁ h₂
    injection h₁ with h₁
    injection h₂ with h₂
    subst h₁
    subst h₂
    apply clamp_mono
    rw [qAdd_eq, qAdd_eq, qAdd_eq, qAdd_eq, qAdd_eq, qAdd_eq]
    have hsize : clamp ((jround (qMul (qDiv n₁ 100000) 25) : ℤ) : ℚ) 0 35
        ≤ clamp ((jround (qMul (qDiv n₂ 100000) 25) : ℤ) : ℚ) 0 35 := by
      apply clamp_mono
      have : jround (qMul (qDiv n₁ 100000) 25) ≤ jround (qMul (qDiv n₂ 100000) 25) := by
        apply jround_mono
        rw [qMul_eq, qMul_eq, qDiv_eq, qDiv_eq]
        gcongr
      exact_mod_cast this
    linarith

/-- Witness for C8: notional 1000 vs 100000 at estimate 10 bps, unknown
congestion, leverage 1: risk scores 11 and 36. -/
theorem preTrade_riskScore_monotone_witness :
    (1000 : ℚ) ≤ 100000 ∧
    preTradeRiskScore (some 1000) (some 10) "unknown" (some 1) = some 11 ∧
    preTradeRiskScore (some 100000) (some 10) "unknown" (some 1) = some 36 ∧
    (11 : ℚ) ≤ 36 ∧
    (buildPreTradeRiskPackDeliverable c8reqW ⟨true, []⟩ (.failure "e") (.failure "e")
        "T").risk_score
      = some (preTradeRiskScore c8reqW.notional_value_usd
          (estSlipBpsOr c8reqW.notional_value_usd (bestOf (.failure "e")))
          (congestionOf (.failure "e")) c8reqW.leverage) :=
  ⟨by norm_num, by decide, by decide,
   preTrade_riskScore_monotone_in_notional.2 1000 100000 10 1 "unknown"
     (by norm_num) 11 36 (by decide) (by decide),
   preTrade_riskScore_monotone_in_notional.1 c8reqW ⟨true, []⟩ (.failure "e")
     (.failure "e") "T" rfl⟩

/-- Claim C9: for every validated pre-trade or execution-quote request,
the recommended maximum slippage equals
`Math.min(cap, Math.max(20, Math.round(est · 0.85)))`: it never exceeds
the caller's `max_slippage_bps`, and never exceeds the 20-bps-floored
value of 0.85 times the estimated slippage. -/
theorem recommendedMaxSlip_cap_and_floor :
    (∀ (req : PreTradeNorm) (v : ValidationResult) (gasF : GasFetch)
       (depthF : DepthFetch) (now : String), v.ok = true →
      ((buildPreTradeRiskPackDeliverable req v gasF depthF now).execution_plan.map
        (fun e => e.recommended_max_slippage_bps))
        = some (recommendedMaxSlip req.max_slippage_bps
            (estSlipBpsOr req.notional_value_usd (bestOf depthF)))) ∧
    (∀ (req : ExecQuoteNorm) (v : ValidationResult) (depthF : DepthFetch)
       (now : String), v.ok = true →
      (buildExecutionQuoteAndRouteDeliverable req v depthF
        now).recommended_max_slippage_bps
        = some (recommendedMaxSlip req.max_slippage_bps
            (estSlipBpsOr req.notional_value_usd (chosenOf req depthF)))) ∧
    (∀ (cap : ℤ) (est r : ℚ),
      recommendedMaxSlip (some cap) (some est) = some r →
      r = min (cap : ℚ) (max 20 ((jround (qMul est (Rat.divInt 17 20)) : ℤ) : ℚ)) ∧
      r ≤ (cap : ℚ) ∧
      r ≤ max 20 ((jround (qMul est (Rat.divInt 17 20)) : ℤ) : ℚ)) := by
  refine ⟨?_, ?_, ?_⟩
  · intro req v gasF depthF now hok
    unfold buildPreTradeRiskPackDeliverable
    rw [hok]
    rfl
  · intro req v depthF now hok
    unfold buildExecutionQuoteAndRouteDeliverable
    rw [hok]
    rfl
  · intro cap est r h
    simp only [recommendedMaxSlip, jqMin, jqMax, jqRound, jqMul, jqOfInt, jq,
      Option.map] at h
    have hr := (Option.some.inj h).symm
    subst hr
    refine ⟨by rw [qMin_eq, qMax_eq], ?_, ?_⟩
    · rw [qMin_eq, qMax_eq]
      exact min_le_left _ _
    · rw [qMin_eq, qMax_eq]
      exact min_le_right _ _

/-- Witness for C9: cap 50, estimate 16 bps — the recommendation is
min(50, max(20, round(13.6))) = 20, within both bounds; and the pre-trade
builder surfaces exactly that value for a concrete validated request. -/
theorem recommendedMaxSlip_cap_and_floor_witness :
    recommendedMaxSlip (some 50) (some 16) = some 20 ∧
    ((20 : ℚ) = min ((50 : ℤ) : ℚ)
        (max 20 ((jround (qMul 16 (Rat.divInt 17 20)) : ℤ) : ℚ)) ∧
     (20 : ℚ) ≤ ((50 : ℤ) : ℚ) ∧
     (20 : ℚ) ≤ max 20 ((jround (qMul 16 (Rat.divInt 17 20)) : ℤ) : ℚ)) ∧
    ((buildPreTradeRiskPackDeliverable c8reqW ⟨true, []⟩ (.failure "e")
        (.failure "e") "T").execution_plan.map
      (fun e => e.recommended_max_slippage_bps))
      = some (recommendedMaxSlip c8reqW.max_slippage_bps
          (estSlipBpsOr c8reqW.notional_value_usd (bestOf (.failure "e")))) :=
  ⟨by decide,
   recommendedMaxSlip_cap_and_floor.2.2 50 16 20 (by decide),
   recommendedMaxSlip_cap_and_floor.1 c8reqW ⟨true, []⟩ (.failure "e")
     (.failure "e") "T" rfl⟩

/-- Claim C10: `toInt` truncates every finite numeric input toward zero
before any range check; concretely, a pre-trade request with
max_slippage_bps 50.9 and time_horizon_minutes 5.5 validates successfully
and stores 50 and 5, an execution-quote request with deadline_seconds
180.7 stores 180, and a market-intel request with lookback_minutes 10.9
stores 10. -/
theorem toInt_truncates_before_range_check :
    (∀ q : ℚ, toInt (.num q) = some (jtrunc q)) ∧
    jtrunc (Rat.divInt 509 10) = 50 ∧
    (validatePreTradeRiskPack c10req).1.ok = true ∧
    (validatePreTradeRiskPack c10req).2.max_slippage_bps = some 50 ∧
    (validatePreTradeRiskPack c10req).2.time_horizon_minutes = some (some 5) ∧
    (validateExecutionQuoteAndRoute c10execReq).1.ok = true ∧
    (validateExecutionQuoteAndRoute c10execReq).2.deadline_seconds = some 180 ∧
    (validateMarketIntel c10intelReq).1.ok = true ∧
    (validateMarketIntel c10intelReq).2.lookback_minutes = some 10 :=
  ⟨fun q => rfl, by decide, by decide, by decide, by decide, by decide, by decide,
   by decide, by decide⟩
